import Mathlib

/-!
Verification of the Kinetic pseudonymization engines.

This file gives a shallow embedding of the two pseudonymization pipelines of
the repository — `Pseudonimiseerder` from `app.py` and `MedicalPseudonymizer`
from `pseudonymizer.py` — together with the helper functions they rely on
(`valideer_bsn`, `parse_datum`, the regex patterns, the date arithmetic), and
proves the behavioural claims of the specification against them.

Python-level conventions modelled here:
  * Texts are `List Char`; Python `str` positions are `Nat` indices.
  * Python `datetime` values are `PyDateTime` (proleptic Gregorian calendar,
    years 1..9999); `(a - b).days` is `toOrdinal a - toOrdinal b`.
  * Python `round` uses banker's rounding (ties to even); `pyRoundFrac`
    models `round(a/n)` exactly on integers.  The float divisions appearing
    in the source only hit representation-exact ties (`k + 1/2`) or values
    whose distance to a tie vastly exceeds double rounding error, so the
    exact model agrees with the float computation on all integer day deltas.
  * Python `list.sort`/`sorted` is a stable sort; stable sorting against a
    total preorder has a unique result, so the structurally recursive
    insertion sort `pySorted` used here coincides with Timsort.
  * The regular expressions of the source are embedded as `RE` syntax trees
    and executed by a backtracking matcher with Python's leftmost-greedy
    priority (alternation tries the left branch first, `*`/`+`/`{m,n}` are
    greedy); `re.sub`/`finditer` scan the subject left to right and resume
    after each non-empty match.  Word characters (`\b`) are modelled as
    ASCII letters, digits, `_` and the accented letters appearing in the
    source patterns.
-/

/-! ### Characters and Python string helpers -/

def isAsciiDigit (c : Char) : Bool := '0' ≤ c && c ≤ '9'

def isAsciiUpperCh (c : Char) : Bool := 'A' ≤ c && c ≤ 'Z'

def isAsciiLowerCh (c : Char) : Bool := 'a' ≤ c && c ≤ 'z'

/-- The accented lowercase letters occurring in the source's character
classes; used for the word-character approximation. -/
def accentedChars : List Char :=
  ['ë', 'é', 'è', 'ê', 'ï', 'í', 'ì', 'î', 'ö', 'ó', 'ò', 'ô', 'ü', 'ú', 'ù', 'û']

def isAccented (c : Char) : Bool := accentedChars.contains c

/-- Python `\w` (word character), restricted to the alphabet relevant here. -/
def isWordChar (c : Char) : Bool :=
  isAsciiUpperCh c || isAsciiLowerCh c || isAsciiDigit c || c = '_' || isAccented c

def isPySpace (c : Char) : Bool :=
  c = ' ' || c = '\t' || c = '\n' || c = '\r' || c = '\x0b' || c = '\x0c'

def asciiLowerChar (c : Char) : Char :=
  if isAsciiUpperCh c then Char.ofNat (c.toNat + 32) else c

def asciiUpperChar (c : Char) : Char :=
  if isAsciiLowerCh c then Char.ofNat (c.toNat - 32) else c

/-- Python `str.lower()` (ASCII fragment). -/
def pyLower (s : List Char) : List Char := s.map asciiLowerChar

/-- Python `str.upper()` (ASCII fragment). -/
def pyUpper (s : List Char) : List Char := s.map asciiUpperChar

/-- Python `str.strip()`: remove leading and trailing whitespace. -/
def pyStrip (s : List Char) : List Char :=
  ((s.dropWhile isPySpace).reverse.dropWhile isPySpace).reverse

/-- Python `str.split()` with no argument: split on whitespace runs,
dropping empty fields (`acc` is the current word, reversed). -/
def pySplitWsGo : List Char → List Char → List (List Char)
  | [], acc => if acc.isEmpty then [] else [acc.reverse]
  | c :: rest, acc =>
    if isPySpace c then
      if acc.isEmpty then pySplitWsGo rest [] else acc.reverse :: pySplitWsGo rest []
    else pySplitWsGo rest (c :: acc)

def pySplitWs (s : List Char) : List (List Char) := pySplitWsGo s []

/-- Python `' '.join(words)`. -/
def joinSpace (ws : List (List Char)) : List Char :=
  match ws with
  | [] => []
  | w :: rest => rest.foldl (fun acc x => acc ++ [' '] ++ x) w

/-- Python `str.isdigit()` (ASCII digits). -/
def pyIsDigit (s : List Char) : Bool := !s.isEmpty && s.all isAsciiDigit

/-- Python `int(s)` on a string of ASCII digits. -/
def digitsToNat (s : List Char) : Nat :=
  s.foldl (fun acc c => acc * 10 + (c.toNat - '0'.toNat)) 0

/-- Substring containment: Python `needle in hay`. -/
def containsSub (hay needle : List Char) : Bool :=
  let rec go (h : List Char) : Bool :=
    match h with
    | [] => needle.isPrefixOf []
    | _ :: rest => needle.isPrefixOf h || go rest
  go hay

def listCharToString (s : List Char) : String := String.mk s

def strChars (s : String) : List Char := s.data

/-! ### Python `datetime` model -/

structure PyDateTime where
  year : Nat
  month : Nat
  day : Nat
deriving DecidableEq, Repr

def isLeapYear (y : Nat) : Bool := y % 4 == 0 && (y % 100 != 0 || y % 400 == 0)

def daysInMonth (y m : Nat) : Nat :=
  if m = 2 then (if isLeapYear y then 29 else 28)
  else if m = 4 || m = 6 || m = 9 || m = 11 then 30
  else 31

def datetimeValid (y m d : Nat) : Bool :=
  1 ≤ y && y ≤ 9999 && 1 ≤ m && m ≤ 12 && 1 ≤ d && d ≤ daysInMonth y m

/-- `datetime(y, m, d)`, with `none` for the `ValueError` cases. -/
def mkDatetime (y m d : Nat) : Option PyDateTime :=
  if datetimeValid y m d then some ⟨y, m, d⟩ else none

def daysBeforeMonth (y m : Nat) : Nat :=
  (List.range (m - 1)).foldl (fun acc i => acc + daysInMonth y (i + 1)) 0

/-- Python `datetime.toordinal()`: day number in the proleptic Gregorian
calendar with `0001-01-01` as day 1. -/
def toOrdinal (dt : PyDateTime) : Int :=
  (365 * (dt.year - 1) + (dt.year - 1) / 4 - (dt.year - 1) / 100 + (dt.year - 1) / 400
    + daysBeforeMonth dt.year dt.month + dt.day : Nat)

/-- `(a - b).days` for two midnight datetimes. -/
def dateDiffDays (a b : PyDateTime) : Int := toOrdinal a - toOrdinal b

def dateLtB (a b : PyDateTime) : Bool := toOrdinal a < toOrdinal b

/-- Python `min` over a nonempty list of datetimes (first element as seed). -/
def listMinDate (d : PyDateTime) (l : List PyDateTime) : PyDateTime :=
  l.foldl (fun best x => if dateLtB x best then x else best) d

/-! ### Python `round` (banker's rounding) -/

/-- Python `round(a / n)` for an integer `a` and a positive integer `n`:
nearest integer to the exact quotient, ties to even.  The source applies
`round` to the float quotient; for the quotients appearing there
(`abs_delta/7`, `abs_delta/30`, `(abs_delta%365)/30`, `10*abs_delta/365`)
every representation-exact tie is of the form `k + 1/2` and every non-tie
is far further from a tie than double rounding error, so the exact
computation agrees with the float one. -/
def pyRoundFrac (a : Int) (n : Nat) : Int :=
  let q := Int.fdiv a n
  let r := a - q * n
  if 2 * r < n then q
  else if (n : Int) < 2 * r then q + 1
  else if q % 2 = 0 then q else q + 1

/-- Render `round(x, 1)` the way a Python f-string renders it after the
source's `int` conversion for integral values. -/
def renderTenths (n10 : Int) : String :=
  if n10 % 10 = 0 then toString (n10 / 10)
  else toString (n10 / 10) ++ "." ++ toString (n10 % 10)

/-! ### Regular-expression engine

A syntax tree for the fragment of Python `re` used by the source, and a
backtracking matcher with Python's priority order. -/

inductive RE where
  /-- a single-character class (literal characters are singleton classes) -/
  | cls (p : Char → Bool)
  | eps
  | seq (a b : RE)
  | alt (a b : RE)
  /-- greedy `*` -/
  | star (a : RE)
  /-- capturing group with Python's group number -/
  | grp (idx : Nat) (a : RE)
  /-- `\b` -/
  | wb
  /-- negative lookahead `(?! c)` on a character class -/
  | nla (p : Char → Bool)
  /-- negative lookbehind `(?<! c)` on a character class -/
  | nlb (p : Char → Bool)

abbrev Caps := List (Nat × List Char)

def isWordO : Option Char → Bool
  | none => false
  | some c => isWordChar c

/-- the size of a pattern, used to compute a sufficient matching fuel -/
def RE.size : RE → Nat
  | .cls _ => 1
  | .eps => 1
  | .seq a b => a.size + b.size + 1
  | .alt a b => a.size + b.size + 1
  | .star a => a.size + 1
  | .grp _ a => a.size + 1
  | .wb => 1
  | .nla _ => 1
  | .nlb _ => 1

/-- Backtracking matcher in continuation-passing style.  `prev` is the
character immediately before the current position (for `\b` and
lookbehind); the continuation receives the new `prev`, the remaining
subject and the captures.  Alternation tries the left branch first and
`star` tries the longer match first, which is Python's priority order.
`fuel` bounds the depth of the call chain (it is structural, so the
function evaluates by kernel reduction); a call chain descends into a
strict subpattern or unrolls a star, and every star body of the source's
patterns consumes at least one character per unrolling, so
`(size + 1) * (length + 2)` fuel (as supplied by `matchAt'`) reproduces
unbounded-backtracking semantics exactly.  When fuel does run out, the
branch simply fails (`none`), which a star's `orElse` turns into the
fewer-iterations fallback. -/
def matchC : Nat → RE → Option Char → List Char → Caps →
    (Option Char → List Char → Caps → Option (Option Char × List Char × Caps)) →
    Option (Option Char × List Char × Caps)
  | 0, _, _, _, _, _ => none
  | fuel + 1, re, prev, s, caps, k =>
    match re with
    | .cls p =>
      match s with
      | [] => none
      | c :: rest => if p c then k (some c) rest caps else none
    | .eps => k prev s caps
    | .seq a b => matchC fuel a prev s caps (fun p' s' c' => matchC fuel b p' s' c' k)
    | .alt a b =>
      (matchC fuel a prev s caps k).orElse (fun _ => matchC fuel b prev s caps k)
    | .star a =>
      (matchC fuel a prev s caps (fun p' s' c' => matchC fuel (.star a) p' s' c' k)).orElse
        (fun _ => k prev s caps)
    | .grp i a =>
      matchC fuel a prev s caps
        (fun p' s' c' => k p' s' ((i, s.take (s.length - s'.length)) :: c'))
    | .wb => if isWordO prev != isWordO s.head? then k prev s caps else none
    | .nla p =>
      match s with
      | [] => k prev s caps
      | c :: _ => if p c then none else k prev s caps
    | .nlb p =>
      match prev with
      | some c => if p c then none else k prev s caps
      | none => k prev s caps

/-- A regex match: start offset, matched text (`group(0)`) and captures. -/
structure RMatch where
  start : Nat
  text : List Char
  caps : Caps
deriving DecidableEq, Repr

def capGroup (m : RMatch) (i : Nat) : Option (List Char) :=
  (m.caps.find? (fun x => x.1 = i)).map (·.2)

/-- Python `match.lastindex` (0 when no group matched). -/
def lastIndex (m : RMatch) : Nat := m.caps.foldl (fun acc x => max acc x.1) 0

/-- Try to match `re` at the current position; returns the number of
characters consumed and the captures. -/
def matchAt' (re : RE) (prev : Option Char) (s : List Char) : Option (Nat × Caps) :=
  match matchC ((re.size + 1) * (s.length + 2)) re prev s []
      (fun p' s' c' => some (p', s', c')) with
  | none => none
  | some (_, s', caps) => some (s.length - s'.length, caps)

/-- Python `re.finditer`: all non-overlapping matches, scanning left to
right and resuming after each (non-empty) match. -/
def findIterGo (re : RE) : Nat → Option Char → List Char → Nat → List RMatch
  | 0, _, _, _ => []
  | fuel + 1, prev, s, pos =>
    match s with
    | [] => []
    | c :: rest =>
      match matchAt' re prev s with
      | some (L, caps) =>
        if L = 0 then findIterGo re fuel (some c) rest (pos + 1)
        else
          { start := pos, text := s.take L, caps := caps } ::
            findIterGo re fuel ((s.take L).getLast?) (s.drop L) (pos + L)
      | none => findIterGo re fuel (some c) rest (pos + 1)

def findIter (re : RE) (s : List Char) : List RMatch :=
  findIterGo re (s.length + 1) none s 0

/-- Python `re.search`: the first match, if any. -/
def reSearch (re : RE) (s : List Char) : Option RMatch :=
  (findIter re s).head?

/-- Python `re.sub` with a (stateful) replacement function.  Matching is
performed against the original subject; replacements are assembled into the
output only. -/
def reSubGo {σ : Type} (re : RE) (repl : RMatch → σ → (List Char × σ)) :
    Nat → Option Char → List Char → Nat → σ → (List Char × σ)
  | 0, _, s, _, st => (s, st)
  | fuel + 1, prev, s, pos, st =>
    match s with
    | [] => ([], st)
    | c :: rest =>
      match matchAt' re prev s with
      | some (L, caps) =>
        if L = 0 then
          let (out, st') := reSubGo re repl fuel (some c) rest (pos + 1) st
          (c :: out, st')
        else
          let m : RMatch := { start := pos, text := s.take L, caps := caps }
          let (r, st') := repl m st
          let (out, st'') := reSubGo re repl fuel ((s.take L).getLast?) (s.drop L) (pos + L) st'
          (r ++ out, st'')
      | none =>
        let (out, st') := reSubGo re repl fuel (some c) rest (pos + 1) st
        (c :: out, st')

def reSub {σ : Type} (re : RE) (repl : RMatch → σ → (List Char × σ)) (s : List Char)
    (st : σ) : (List Char × σ) :=
  reSubGo re repl (s.length + 1) none s 0 st

/-! #### Regex construction helpers -/

def chC (c : Char) : RE := .cls (fun d => d = c)

/-- a literal character under `re.IGNORECASE` -/
def chI (c : Char) : RE :=
  .cls (fun d => d = c || asciiLowerChar d = c || asciiUpperChar d = c)

def litS (s : String) : RE := s.data.foldr (fun c r => .seq (chC c) r) .eps

def litI (s : String) : RE := s.data.foldr (fun c r => .seq (chI c) r) .eps

def catR (l : List RE) : RE := l.foldr .seq .eps

/-- `r{n}` -/
def repN (n : Nat) (r : RE) : RE := catR (List.replicate n r)

/-- greedy `r?` -/
def optR (r : RE) : RE := .alt r .eps

/-- greedy `r{0,k}` (at most `k` copies, preferring more) -/
def upToR (k : Nat) (r : RE) : RE :=
  match k with
  | 0 => .eps
  | k + 1 => .alt (.seq r (upToR k r)) .eps

/-- greedy `r{m,n}` -/
def repRange (m n : Nat) (r : RE) : RE := .seq (repN m r) (upToR (n - m) r)

/-- greedy `r+` -/
def plusR (r : RE) : RE := .seq r (.star r)

/-- greedy `r{m,}` -/
def atLeastR (m : Nat) (r : RE) : RE := .seq (repN m r) (.star r)

def clsD : RE := .cls isAsciiDigit

def clsS : RE := .cls isPySpace

/-- ordered alternation (Python `a|b|c` tries left to right) -/
def altsR (l : List RE) : RE :=
  match l with
  | [] => .eps
  | [r] => r
  | r :: rest => .alt r (altsR rest)

/-- ordered alternation of case-insensitive literals -/
def altLitI (l : List String) : RE := altsR (l.map litI)

/-- ordered alternation of case-sensitive literals -/
def altLitS (l : List String) : RE := altsR (l.map litS)

/-- Apply `re.IGNORECASE` to a pattern: every character class also accepts
the other-case variant of a character. -/
def ciRE : RE → RE
  | .cls p => .cls (fun c => p c || p (asciiLowerChar c) || p (asciiUpperChar c))
  | .eps => .eps
  | .seq a b => .seq (ciRE a) (ciRE b)
  | .alt a b => .alt (ciRE a) (ciRE b)
  | .star a => .star (ciRE a)
  | .grp i a => .grp i (ciRE a)
  | .wb => .wb
  | .nla p => .nla p
  | .nlb p => .nlb p

/-! ### `app.py`: configuration data -/

def VOORNAMEN : List String :=
  ["jan", "piet", "klaas", "hendrik", "johannes", "willem", "cornelis", "peter",
   "johan", "gerrit", "thomas", "dennis", "mark", "michael", "robert", "richard",
   "marcel", "erik", "jeroen", "bas", "tom", "tim", "kevin", "stefan", "marco",
   "frank", "martin", "patrick", "ronald", "raymond", "henk", "dirk", "bert",
   "hans", "fred", "paul", "leon", "sander", "rick", "nick", "max", "lucas",
   "daan", "sem", "finn", "liam", "noah", "jesse", "jayden", "ruben", "lars",
   "maria", "anna", "johanna", "elisabeth", "cornelia", "wilhelmina", "petronella",
   "linda", "sandra", "monique", "diana", "wendy", "patricia", "jessica", "melissa",
   "angela", "nicole", "mandy", "kim", "anouk", "lisa", "eva", "julia", "emma",
   "sophie", "lotte", "fleur", "iris", "anne", "maud", "sanne", "laura", "sarah",
   "marloes", "marieke", "esther", "ingrid", "annemarie", "els", "greet", "truus"]

def ACHTERNAMEN : List String :=
  ["de jong", "jansen", "de vries", "van den berg", "van dijk", "bakker", "janssen",
   "visser", "smit", "meijer", "de boer", "mulder", "de groot", "bos", "vos",
   "peters", "hendriks", "van leeuwen", "dekker", "brouwer", "de wit", "dijkstra",
   "smits", "de graaf", "van der meer", "van der linden", "kok", "jacobs", "de haan",
   "vermeer", "van den heuvel", "van der heijden", "dijkman", "schouten", "van dam",
   "van der wal", "prins", "zwart", "postma", "van der veen", "jansma", "kuiper",
   "peeters", "claes", "wouters", "goossens", "maes", "willems"]

def ZIEKENHUIZEN : List String :=
  ["amsterdam umc", "erasmus mc", "lumc", "radboudumc", "umcg", "umcu", "mumc+",
   "vumc", "amc", "academisch medisch centrum", "antonius ziekenhuis", "bernhoven",
   "bravis ziekenhuis", "catharina ziekenhuis", "deventer ziekenhuis", "diakonessenhuis",
   "elkerliek ziekenhuis", "flevoziekenhuis", "gelre ziekenhuizen", "groene hart ziekenhuis",
   "haga ziekenhuis", "ikazia ziekenhuis", "isala", "jeroen bosch ziekenhuis",
   "maasstad ziekenhuis", "martini ziekenhuis", "maxima medisch centrum",
   "meander medisch centrum", "medisch centrum leeuwarden", "olvg", "reinier de graaf",
   "rijnstate", "tergooi", "viecuri", "zaans medisch centrum", "zuyderland",
   "amphia ziekenhuis", "albert schweitzer ziekenhuis", "reade", "roessingh",
   "sint maartenskliniek", "de hoogstraat", "heliomare", "klimmendaal"]

def STEDEN : List String :=
  ["amsterdam", "rotterdam", "den haag", "'s-gravenhage", "utrecht", "eindhoven",
   "groningen", "tilburg", "almere", "breda", "nijmegen", "enschede", "haarlem",
   "arnhem", "zaanstad", "amersfoort", "apeldoorn", "hoofddorp", "maastricht",
   "leiden", "dordrecht", "zoetermeer", "zwolle", "deventer", "delft", "alkmaar",
   "heerlen", "venlo", "leeuwarden", "hilversum", "oss", "bonaire", "curaçao",
   "aruba", "sint maarten", "kralendijk", "willemstad", "oranjestad"]

/-! ### `app.py`: PII patterns (`class PIIPatterns`) -/

def clsAZup : RE := .cls isAsciiUpperCh

def clsAccLower : RE := .cls (fun c => isAsciiLowerCh c || isAccented c)

def clsSep : RE := .cls (fun c => isPySpace c || c = '.' || c = '-')

def cls19 : RE := .cls (fun c => '1' ≤ c && c ≤ '9')

def clsAlphaAll : RE := .cls (fun c => isAsciiLowerCh c || isAsciiUpperCh c)

/-- `BSN = \b(\d{9})\b` -/
def reBSN : RE := catR [.wb, .grp 1 (repN 9 clsD), .wb]

/-- `IBAN = \b(NL\d{2}[A-Z]{4}\d{10})\b` with `re.IGNORECASE` -/
def reIBAN : RE :=
  ciRE (catR [.wb, .grp 1 (catR [litS "NL", repN 2 clsD, repN 4 clsAZup, repN 10 clsD]), .wb])

/-- `TELEFOON = \b((?:0|\+31|0031)[\s.-]?(?:[1-9]\d{1,2})[\s.-]?(?:\d{2,3}[\s.-]?){2,3}\d{2})\b` -/
def reTELEFOON : RE := catR [.wb, .grp 1 (catR [
  altsR [litS "0", litS "+31", litS "0031"],
  optR clsSep,
  catR [cls19, repRange 1 2 clsD],
  optR clsSep,
  repRange 2 3 (catR [repRange 2 3 clsD, optR clsSep]),
  repN 2 clsD]), .wb]

/-- `MOBIEL = \b((?:0|\+31|0031)[\s.-]?6[\s.-]?(?:\d{2}[\s.-]?){3}\d{2})\b` -/
def reMOBIEL : RE := catR [.wb, .grp 1 (catR [
  altsR [litS "0", litS "+31", litS "0031"],
  optR clsSep, litS "6", optR clsSep,
  repN 3 (catR [repN 2 clsD, optR clsSep]),
  repN 2 clsD]), .wb]

/-- `EMAIL = \b([a-zA-Z0-9._%+-]+@[a-zA-Z0-9.-]+\.[a-zA-Z]{2,})\b` -/
def reEMAIL : RE := catR [.wb, .grp 1 (catR [
  plusR (.cls (fun c => isAsciiLowerCh c || isAsciiUpperCh c || isAsciiDigit c ||
    c = '.' || c = '_' || c = '%' || c = '+' || c = '-')),
  chC '@',
  plusR (.cls (fun c => isAsciiLowerCh c || isAsciiUpperCh c || isAsciiDigit c ||
    c = '.' || c = '-')),
  chC '.',
  atLeastR 2 clsAlphaAll]), .wb]

/-- `POSTCODE = \b(\d{4}\s?[A-Z]{2})\b` -/
def rePOSTCODE : RE := catR [.wb, .grp 1 (catR [repN 4 clsD, optR clsS, repN 2 clsAZup]), .wb]

def maandNamen : List String :=
  ["januari", "februari", "maart", "april", "mei", "juni", "juli", "augustus",
   "september", "oktober", "november", "december"]

def maandAfk : List String :=
  ["jan", "feb", "mrt", "apr", "jun", "jul", "aug", "sep", "okt", "nov", "dec"]

/-- `DATUM_TEKST = \b(\d{1,2})\s+(januari|...|december)\s+(\d{4})\b` with `re.IGNORECASE` -/
def reDATUM_TEKST : RE := ciRE (catR [.wb,
  .grp 1 (repRange 1 2 clsD), plusR clsS,
  .grp 2 (altLitS maandNamen), plusR clsS,
  .grp 3 (repN 4 clsD), .wb])

def clsDMYSep : RE := .cls (fun c => c = '-' || c = '/' || c = '.' || isPySpace c)

/-- `DATUM_DMY`: day group, then a separator (dash, slash, dot or space),
then a month group (numeric or a month name or abbreviation), a separator,
and a 2-4 digit year group, all inside word boundaries; `re.IGNORECASE`. -/
def reDATUM_DMY : RE := ciRE (catR [.wb,
  .grp 1 (repRange 1 2 clsD), clsDMYSep,
  .grp 2 (altsR ([repRange 1 2 clsD] ++ (maandNamen ++ maandAfk).map litS)), clsDMYSep,
  .grp 3 (repRange 2 4 clsD), .wb])

/-- `PATIENTNUMMER = \b(?:pati[eë]nt(?:nummer|nr|id)?|dossier(?:nummer|nr)?|zaaknummer|casusnummer)[-:\s]?([A-Z0-9-]{4,15})\b`
with `re.IGNORECASE` -/
def rePATIENTNUMMER : RE := ciRE (catR [.wb,
  altsR [
    catR [litS "pati", .cls (fun c => c = 'e' || c = 'ë'), litS "nt",
      optR (altsR [litS "nummer", litS "nr", litS "id"])],
    catR [litS "dossier", optR (altsR [litS "nummer", litS "nr"])],
    litS "zaaknummer", litS "casusnummer"],
  optR (.cls (fun c => c = '-' || c = ':' || isPySpace c)),
  .grp 1 (repRange 4 15 (.cls (fun c => isAsciiUpperCh c || isAsciiDigit c || c = '-'))),
  .wb])

/-! ### `app.py`: helper functions -/

/-- `valideer_bsn`: the 11-test. -/
def valideer_bsn (bsn : List Char) : Bool :=
  if !(pyIsDigit bsn) || bsn.length ≠ 9 then false
  else
    let gewichten : List Int := [9, 8, 7, 6, 5, 4, 3, 2, -1]
    let som : Int := (List.zip bsn gewichten).foldl
      (fun acc cw => acc + ((cw.1.toNat - '0'.toNat : Nat) : Int) * cw.2) 0
    som % 11 == 0 && som != 0

def valideer_bsnS (bsn : String) : Bool := valideer_bsn bsn.data

def maandenMap : List (String × Nat) :=
  [("januari", 1), ("februari", 2), ("maart", 3), ("april", 4),
   ("mei", 5), ("juni", 6), ("juli", 7), ("augustus", 8),
   ("september", 9), ("oktober", 10), ("november", 11), ("december", 12),
   ("jan", 1), ("feb", 2), ("mrt", 3), ("apr", 4), ("jun", 6),
   ("jul", 7), ("aug", 8), ("sep", 9), ("okt", 10), ("nov", 11), ("dec", 12)]

/-- `parse_datum`: parse a date match (day group, month group, year group). -/
def parse_datum (g1 g2 g3 : List Char) : Option PyDateTime :=
  let dag := digitsToNat g1
  let maand_str := pyLower g2
  let maand : Option Nat :=
    match maandenMap.find? (fun kv => kv.1.data = maand_str) with
    | some kv => some kv.2
    | none => if pyIsDigit maand_str then some (digitsToNat maand_str) else none
  match maand with
  | none => none
  | some m =>
    let jaar0 := digitsToNat g3
    let jaar := if jaar0 < 100 then (if jaar0 < 50 then jaar0 + 2000 else jaar0 + 1900) else jaar0
    mkDatetime jaar m dag

/-- `parse_datum` applied to a regex match (its three groups). -/
def parse_datum_m (m : RMatch) : Option PyDateTime :=
  parse_datum ((capGroup m 1).getD []) ((capGroup m 2).getD []) ((capGroup m 3).getD [])

/-! ### `app.py`: the `Pseudonimiseerder` class -/

/-- The mutable state of a `Pseudonimiseerder` object (constructor fields). -/
structure AppState where
  gebruik_relatieve_datums : Bool
  referentie_datum : Option PyDateTime
  naam_mapping : List (List Char × String)
  adres_mapping : List (List Char × String)
  locatie_mapping : List (List Char × String)
  tellers : List (String × Nat)
  gevonden_datums : List PyDateTime
  statistieken : List (String × Nat)
  waarschuwingen : List String
deriving DecidableEq, Repr

/-- `Pseudonimiseerder.__init__` -/
def mkPseudonimiseerder (gebruik_relatieve_datums : Bool)
    (referentie_datum : Option PyDateTime) : AppState :=
  ⟨gebruik_relatieve_datums, referentie_datum, [], [], [], [], [], [], []⟩

/-- association-list lookup (Python `dict` access) -/
def alookup {α β : Type} [DecidableEq α] (k : α) : List (α × β) → Option β
  | [] => none
  | kv :: rest => if kv.1 = k then some kv.2 else alookup k rest

/-- association-list insert/update (Python `dict` assignment) -/
def aset {α β : Type} [DecidableEq α] (k : α) (v : β) : List (α × β) → List (α × β)
  | [] => [(k, v)]
  | kv :: rest => if kv.1 = k then (k, v) :: rest else kv :: aset k v rest

/-- Python `defaultdict(int)` increment (`d[k] += 1`) -/
def abump {α : Type} [DecidableEq α] (k : α) (l : List (α × Nat)) : List (α × Nat) :=
  aset k ((alookup k l).getD 0 + 1) l

/-- `Pseudonimiseerder._get_label`, acting on the counters and the chosen
mapping dict (the only state it touches). -/
def get_label (categorie : String) (origineel : List Char)
    (tellers : List (String × Nat)) (mapping : List (List Char × String)) :
    String × List (String × Nat) × List (List Char × String) :=
  let key := pyStrip (pyLower origineel)
  match alookup key mapping with
  | some lbl => (lbl, tellers, mapping)
  | none =>
    let tellers' := abump categorie tellers
    let n := (alookup categorie tellers').getD 0
    let lbl := "[" ++ String.mk (pyUpper categorie.data) ++ "_" ++ toString n ++ "]"
    (lbl, tellers', aset key lbl mapping)

/-- The pure label computation of `Pseudonimiseerder._datum_naar_relatief`
once a reference date is available: banded relative-date rendering. -/
def relLabelApp (referentie datum : PyDateTime) : String :=
  let delta : Int := dateDiffDays datum referentie
  if delta = 0 then "[ONGEVAL]"
  else
    let abs_delta : Int := |delta|
    let teken := if delta > 0 then "+" else "-"
    if abs_delta = 1 then "[" ++ teken ++ "1 dag]"
    else if abs_delta < 7 then "[" ++ teken ++ toString abs_delta ++ " dagen]"
    else if abs_delta < 14 then "[" ++ teken ++ "1 week]"
    else if abs_delta < 28 then
      let weken := pyRoundFrac abs_delta 7
      let eenheid := if weken > 1 then "weken" else "week"
      "[" ++ teken ++ toString weken ++ " " ++ eenheid ++ "]"
    else if abs_delta < 60 then
      let maanden := pyRoundFrac abs_delta 30
      let eenheid := if maanden = 1 then "maand" else "maanden"
      "[" ++ teken ++ toString maanden ++ " " ++ eenheid ++ "]"
    else if abs_delta < 365 then
      let maanden := pyRoundFrac abs_delta 30
      "[" ++ teken ++ toString maanden ++ " maanden]"
    else if abs_delta < 730 then
      let jaren := abs_delta / 365
      let rest_maanden := pyRoundFrac (abs_delta % 365) 30
      if rest_maanden = 0 then "[" ++ teken ++ toString jaren ++ " jaar]"
      else if rest_maanden < 2 then "[" ++ teken ++ toString jaren ++ " jaar]"
      else "[" ++ teken ++ toString jaren ++ " jaar, " ++ toString rest_maanden ++ " mnd]"
    else
      "[" ++ teken ++ renderTenths (pyRoundFrac (10 * abs_delta) 365) ++ " jaar]"

/-- `Pseudonimiseerder._datum_naar_relatief`: acts on `referentie_datum`
(which it may establish from the collected-dates pool) and returns the
label.  It reads but never writes `_gevonden_datums`. -/
def datum_naar_relatief (referentie_datum : Option PyDateTime)
    (gevonden_datums : List PyDateTime) (datum : PyDateTime) :
    String × Option PyDateTime :=
  match referentie_datum with
  | some r => (relLabelApp r datum, some r)
  | none =>
    match gevonden_datums with
    | [] => ("[DATUM]", none)
    | d :: rest =>
      let r := listMinDate d rest
      (relLabelApp r datum, some r)

/-- A candidate replacement: `(start, eind, origineel, label)`. -/
abbrev Gevonden := Nat × Nat × List Char × String

def gStart (g : Gevonden) : Nat := g.1

def gEind (g : Gevonden) : Nat := g.2.1

def gOrig (g : Gevonden) : List Char := g.2.2.1

def gLabel (g : Gevonden) : String := g.2.2.2

def mkGevonden (m : RMatch) (label : String) : Gevonden :=
  (m.start, m.start + m.text.length, m.text, label)

def in_email (email_posities : List (Nat × Nat)) (start eind : Nat) : Bool :=
  email_posities.any (fun p => (p.1 ≤ start && start < p.2) || (p.1 < eind && eind ≤ p.2))

/-- the `tv_pattern` alternation of `_detecteer_namen` -/
def tvPattern : RE := altsR [
  catR [litS "van", plusR clsS, litS "de"],
  catR [litS "van", plusR clsS, litS "den"],
  catR [litS "van", plusR clsS, litS "der"],
  catR [litS "van", plusR clsS, litS "het"],
  catR [litS "van", plusR clsS, litS "'t"],
  litS "van", litS "de", litS "het", litS "ter", litS "ten"]

/-- per-first-name pattern of `_detecteer_namen` (with `re.IGNORECASE`) -/
def voornaamRE (voornaam : String) : RE := ciRE (catR [.wb,
  .grp 1 (litS voornaam), plusR clsS,
  optR (.grp 2 (catR [tvPattern, plusR clsS])),
  .grp 3 (catR [clsAZup, plusR clsAccLower]), .wb])

/-- the honorific/title pattern of `_detecteer_namen` (with `re.IGNORECASE`) -/
def titelsRE : RE := ciRE (catR [.wb, .grp 1 (catR [
  optR (catR [litS "de", plusR clsS]),
  altsR [litS "heer", litS "mevrouw", litS "mevr.", litS "dhr.", litS "mr.",
    litS "dr.", litS "prof."],
  plusR clsS,
  optR (catR [tvPattern, plusR clsS]),
  clsAZup, plusR clsAccLower]), .wb])

/-- per-surname pattern of `_detecteer_namen` (with `re.IGNORECASE`) -/
def achternaamRE (achternaam : String) : RE := ciRE (catR [.wb,
  .grp 1 (catR [optR (catR [tvPattern, plusR clsS]), litS achternaam]), .wb])

/-- `\b<woord>\b` with `re.IGNORECASE` (hospital and city patterns) -/
def woordRE (w : String) : RE := ciRE (catR [.wb, litS w, .wb])

/-- the street pattern of `_detecteer_adressen` (with `re.IGNORECASE`) -/
def straatREApp : RE := ciRE (catR [.wb,
  .grp 1 (catR [clsAZup, plusR clsAccLower,
    altLitS ["straat", "laan", "weg", "plein", "gracht", "kade", "singel", "dreef", "hof"]]),
  .star clsS,
  .grp 2 (catR [repRange 1 5 clsD, optR clsAlphaAll,
    optR (catR [.star clsS, .cls (fun c => c = '-' || c = '/'), .star clsS, plusR clsD])]),
  .wb])

/-- `Pseudonimiseerder._detecteer_namen` (touches counters and the name
mapping only). -/
def detecteer_namen (tekst : List Char) (email_posities : List (Nat × Nat))
    (tellers₀ : List (String × Nat)) (naam₀ : List (List Char × String)) :
    List Gevonden × List (String × Nat) × List (List Char × String) :=
  -- first names with optional tussenvoegsel + surname
  let s1 : List Gevonden × List (String × Nat) × List (List Char × String) :=
    VOORNAMEN.foldl (fun acc voornaam =>
      (findIter (voornaamRE voornaam) tekst).foldl (fun acc2 m =>
        let (g, t, mp) := acc2
        if !(in_email email_posities m.start (m.start + m.text.length)) then
          let (label, t', mp') := get_label "naam" m.text t mp
          (g ++ [mkGevonden m label], t', mp')
        else acc2) acc) ([], tellers₀, naam₀)
  -- titles + name
  let s2 : List Gevonden × List (String × Nat) × List (List Char × String) :=
    (findIter titelsRE tekst).foldl (fun acc2 m =>
      let (g, t, mp) := acc2
      if !(in_email email_posities m.start (m.start + m.text.length)) then
        let al_gevonden := g.any (fun x => gStart x ≤ m.start && m.start < gEind x)
        if !al_gevonden then
          let (label, t', mp') := get_label "naam" m.text t mp
          (g ++ [mkGevonden m label], t', mp')
        else acc2
      else acc2) s1
  -- known surnames
  let s3 : List Gevonden × List (String × Nat) × List (List Char × String) :=
    ACHTERNAMEN.foldl (fun acc achternaam =>
      (findIter (achternaamRE achternaam) tekst).foldl (fun acc2 m =>
        let (g, t, mp) := acc2
        if !(in_email email_posities m.start (m.start + m.text.length)) then
          let al_gevonden := g.any (fun x =>
            (gStart x ≤ m.start && m.start < gEind x) ||
            (gStart x < m.start + m.text.length && m.start + m.text.length ≤ gEind x))
          if !al_gevonden then
            let (label, t', mp') := get_label "naam" m.text t mp
            (g ++ [mkGevonden m label], t', mp')
          else acc2
        else acc2) acc) s2
  s3

/-- `Pseudonimiseerder._detecteer_locaties` (touches counters and the
location mapping only). -/
def detecteer_locaties (tekst : List Char)
    (tellers₀ : List (String × Nat)) (loc₀ : List (List Char × String)) :
    List Gevonden × List (String × Nat) × List (List Char × String) :=
  let s1 : List Gevonden × List (String × Nat) × List (List Char × String) :=
    ZIEKENHUIZEN.foldl (fun acc ziekenhuis =>
      (findIter (woordRE ziekenhuis) tekst).foldl (fun acc2 m =>
        let (g, t, mp) := acc2
        let (label, t', mp') := get_label "ziekenhuis" m.text t mp
        (g ++ [mkGevonden m label], t', mp')) acc) ([], tellers₀, loc₀)
  let s2 : List Gevonden × List (String × Nat) × List (List Char × String) :=
    STEDEN.foldl (fun acc stad =>
      (findIter (woordRE stad) tekst).foldl (fun acc2 m =>
        let (g, t, mp) := acc2
        let al_gevonden := g.any (fun x => gStart x ≤ m.start && m.start < gEind x)
        if !al_gevonden then
          let (label, t', mp') := get_label "plaats" m.text t mp
          (g ++ [mkGevonden m label], t', mp')
        else acc2) acc) s1
  s2

/-- `Pseudonimiseerder._detecteer_adressen` (touches counters and the
address mapping only). -/
def detecteer_adressen (tekst : List Char)
    (tellers₀ : List (String × Nat)) (adres₀ : List (List Char × String)) :
    List Gevonden × List (String × Nat) × List (List Char × String) :=
  let s1 : List Gevonden × List (String × Nat) × List (List Char × String) :=
    (findIter rePOSTCODE tekst).foldl (fun acc2 m =>
      let (g, t, mp) := acc2
      let (label, t', mp') := get_label "postcode" m.text t mp
      (g ++ [mkGevonden m label], t', mp')) ([], tellers₀, adres₀)
  let s2 : List Gevonden × List (String × Nat) × List (List Char × String) :=
    (findIter straatREApp tekst).foldl (fun acc2 m =>
      let (g, t, mp) := acc2
      let (label, t', mp') := get_label "adres" m.text t mp
      (g ++ [mkGevonden m label], t', mp')) s1
  s2

/-- a parsed date match inside `_detecteer_datums` -/
structure DMatch where
  start : Nat
  eind : Nat
  orig : List Char
  datum : PyDateTime

/-- the labelling loop of `_detecteer_datums`: after the collect-and-parse
phase, walk the parsed matches and label each one (relatively when
`gebruik_relatieve_datums` is set, else with the literal marker). -/
def datumLoop (gebruik_relatieve_datums : Bool) (pool : List PyDateTime) :
    List DMatch → List Gevonden × Option PyDateTime → List Gevonden × Option PyDateTime
  | [], acc => acc
  | x :: rest, acc =>
    let (g, r) := acc
    if gebruik_relatieve_datums then
      let (label, r') := datum_naar_relatief r pool x.datum
      datumLoop gebruik_relatieve_datums pool rest
        (g ++ [(x.start, x.eind, x.orig, label)], r')
    else
      datumLoop gebruik_relatieve_datums pool rest
        (g ++ [(x.start, x.eind, x.orig, "[DATUM]")], r)

/-- the collect-and-parse phase of `_detecteer_datums`: textual-month dates
first, then numeric dates not overlapping an already-collected match,
keeping only the candidates `parse_datum` accepts. -/
def alleDatumMatches (tekst : List Char) : List DMatch :=
  let alle₁ : List DMatch := (findIter reDATUM_TEKST tekst).foldl (fun acc m =>
    match parse_datum_m m with
    | some d => acc ++ [⟨m.start, m.start + m.text.length, m.text, d⟩]
    | none => acc) []
  (findIter reDATUM_DMY tekst).foldl (fun acc m =>
    let al_gevonden := acc.any (fun x => x.start ≤ m.start && m.start < x.eind)
    if al_gevonden then acc
    else
      match parse_datum_m m with
      | some d => acc ++ [⟨m.start, m.start + m.text.length, m.text, d⟩]
      | none => acc) alle₁

/-- `Pseudonimiseerder._detecteer_datums` (touches the reference date and
the collected-dates pool; two-phase: collect and parse all matches, then
label them). -/
def detecteer_datums (tekst : List Char) (gebruik_relatieve_datums : Bool)
    (referentie₀ : Option PyDateTime) (pool₀ : List PyDateTime) :
    List Gevonden × Option PyDateTime × List PyDateTime :=
  let alle₂ := alleDatumMatches tekst
  let pool' := pool₀ ++ alle₂.map (·.datum)
  let step := datumLoop gebruik_relatieve_datums pool' alle₂ ([], referentie₀)
  (step.1, step.2, pool')

/-- `Pseudonimiseerder._detecteer_contact` (stateless). -/
def detecteer_contact (tekst : List Char) : List Gevonden :=
  let s1 : List Gevonden := (findIter reBSN tekst).foldl (fun acc m =>
    if valideer_bsn ((capGroup m 1).getD []) then acc ++ [mkGevonden m "[BSN]"] else acc) []
  let s2 : List Gevonden := (findIter reIBAN tekst).foldl (fun acc m =>
    acc ++ [mkGevonden m "[IBAN]"]) s1
  let s3 : List Gevonden := [reMOBIEL, reTELEFOON].foldl (fun acc pat =>
    (findIter pat tekst).foldl (fun acc2 m =>
      let al_gevonden := acc2.any (fun x => gStart x ≤ m.start && m.start < gEind x)
      if !al_gevonden then acc2 ++ [mkGevonden m "[TELEFOON]"] else acc2) acc) s2
  let s4 : List Gevonden := (findIter rePATIENTNUMMER tekst).foldl (fun acc m =>
    acc ++ [mkGevonden m "[PATIENTNUMMER]"]) s3
  s4

/-- stable insertion of `x` after every element `y` with `le y x` -/
def insertStable {α : Type} (le : α → α → Bool) (x : α) : List α → List α
  | [] => [x]
  | y :: rest => if le y x then y :: insertStable le x rest else x :: y :: rest

/-- Python `sorted`/`list.sort` with respect to a total boolean preorder:
a stable sort (insertion sort; stable sorts are unique, so this models
Python's Timsort faithfully). -/
def pySorted {α : Type} (le : α → α → Bool) (l : List α) : List α :=
  l.foldl (fun acc x => insertStable le x acc) []

/-- the sort key `(x[0], -(x[1]-x[0]))` of `pseudonimiseer`, as a total
boolean preorder (ascending start, then descending length) -/
def leKeyLex (a b : Gevonden) : Bool :=
  gStart a < gStart b ||
    (gStart a = gStart b && ((gEind b : Int) - gStart b ≤ (gEind a : Int) - gStart a))

/-- the second sort key `x[0]` -/
def leKeyStart (a b : Gevonden) : Bool := gStart a ≤ gStart b

/-- the overlap-filtering walk of `pseudonimiseer`
(`laatste_eind` starts at `-1`). -/
def greedyFilter : List Gevonden → Int → List Gevonden
  | [], _ => []
  | v :: rest, laatste_eind =>
    if (gStart v : Int) ≥ laatste_eind then v :: greedyFilter rest (gEind v : Int)
    else greedyFilter rest laatste_eind

/-- the span-resolution step of `pseudonimiseer`: sort by
`(start, -(length))`, re-sort (stably) by start, then walk with the
`laatste_eind` cursor. -/
def resolveVervangingen (l : List Gevonden) : List Gevonden :=
  let sorted₁ := pySorted leKeyLex l
  let sorted₂ := pySorted leKeyStart sorted₁
  greedyFilter sorted₂ (-1)

/-- the statistics category chosen for a label in `pseudonimiseer` -/
def statCategorie (label : String) : String :=
  if containsSub label.data "NAAM".data then "namen"
  else if containsSub label.data "ZIEKENHUIS".data then "ziekenhuizen"
  else if containsSub label.data "PLAATS".data then "plaatsen"
  else if containsSub label.data "POSTCODE".data || containsSub label.data "ADRES".data then
    "adressen"
  else if containsSub label.data "T+".data || containsSub label.data "T-".data ||
      containsSub label.data "DATUM".data then "datums"
  else if containsSub label.data "BSN".data then "bsn"
  else if containsSub label.data "TELEFOON".data then "telefoon"
  else if containsSub label.data "EMAIL".data then "emails"
  else if containsSub label.data "IBAN".data then "iban"
  else "overig"

/-- the replacement loop of `pseudonimiseer` (descending starts; splices
each label into the evolving text and updates the statistics). -/
def pasVervangingenToe : List Gevonden → List Char → List (String × Nat) →
    List Char × List (String × Nat)
  | [], resultaat, stats => (resultaat, stats)
  | v :: rest, resultaat, stats =>
    let stats' := abump (statCategorie (gLabel v)) stats
    let resultaat' := resultaat.take (gStart v) ++ (gLabel v).data ++ resultaat.drop (gEind v)
    pasVervangingenToe rest resultaat' stats'

/-- `Pseudonimiseerder.pseudonimiseer`. -/
def pseudonimiseer (st : AppState) (tekst : List Char) : List Char × AppState :=
  let emails := findIter reEMAIL tekst
  let email_posities := emails.map (fun m => (m.start, m.start + m.text.length))
  let verv₀ : List Gevonden := emails.map (fun m => mkGevonden m "[EMAIL]")
  let (gNamen, tellers₁, naam') :=
    detecteer_namen tekst email_posities st.tellers st.naam_mapping
  let (gLoc, tellers₂, loc') := detecteer_locaties tekst tellers₁ st.locatie_mapping
  let (gAdres, tellers₃, adres') := detecteer_adressen tekst tellers₂ st.adres_mapping
  let (gDatums, ref', pool') :=
    detecteer_datums tekst st.gebruik_relatieve_datums st.referentie_datum st.gevonden_datums
  let gContact := detecteer_contact tekst
  let alle := verv₀ ++ gNamen ++ gLoc ++ gAdres ++ gDatums ++ gContact
  let gefilterd := resolveVervangingen alle
  let descending := pySorted (fun a b => gStart b ≤ gStart a) gefilterd
  let (resultaat, stats') := pasVervangingenToe descending tekst st.statistieken
  (resultaat,
   { st with
     naam_mapping := naam'
     adres_mapping := adres'
     locatie_mapping := loc'
     tellers := tellers₃
     gevonden_datums := pool'
     referentie_datum := ref'
     statistieken := stats' })

/-- `pseudonimiseer` on strings. -/
def pseudonimiseerS (st : AppState) (tekst : String) : String × AppState :=
  let (r, st') := pseudonimiseer st tekst.data
  (String.mk r, st')

/-! ### `pseudonymizer.py`: the `MedicalPseudonymizer` class -/

/-- `PseudonymizationResult` (dataclass). -/
structure PseudonymizationResult where
  original_text : String
  pseudonymized_text : String
  replacements : List (List Char × String)
  statistics : List (String × Nat)
  incident_date : Option PyDateTime
  warnings : List String
deriving DecidableEq, Repr

/-- The mutable state of a `MedicalPseudonymizer` object. -/
structure MedState where
  incident_date : Option PyDateTime
  name_mapping : List (List Char × String)
  name_counter : Nat
  address_counter : Nat
  statistics : List (String × Nat)
  warnings : List String
deriving DecidableEq, Repr

/-- `MedicalPseudonymizer.__init__` -/
def mkMedicalPseudonymizer (incident_date : Option PyDateTime) : MedState :=
  ⟨incident_date, [], 0, 0, [], []⟩

/-- `MedicalPseudonymizer._normalize_name`: `' '.join(name.lower().split())`. -/
def normalize_name (name : List Char) : List Char := joinSpace (pySplitWs (pyLower name))

/-- `MedicalPseudonymizer._get_person_pseudonym`, acting on the name mapping
and the name counter (the only state it touches). -/
def get_person_pseudonym (name : List Char)
    (mapping : List (List Char × String)) (counter : Nat) :
    String × List (List Char × String) × Nat :=
  let normalized := normalize_name name
  match alookup normalized mapping with
  | some lbl => (lbl, mapping, counter)
  | none =>
    let counter' := counter + 1
    let lbl := "[PERSOON_" ++ toString counter' ++ "]"
    (lbl, aset normalized lbl mapping, counter')

/-! #### `_parse_date` (Python `strptime` with the four supported formats) -/

def clsDashSlash : RE := .cls (fun c => c = '-' || c = '/')

/-- the `strptime` `%d` fragment: `3[01]|[12]\d|0[1-9]|[1-9]` -/
def strptimeDayRE : RE := altsR [
  catR [chC '3', .cls (fun c => c = '0' || c = '1')],
  catR [.cls (fun c => c = '1' || c = '2'), clsD],
  catR [chC '0', cls19],
  cls19]

/-- the `strptime` `%m` fragment: `1[0-2]|0[1-9]|[1-9]` -/
def strptimeMonthRE : RE := altsR [
  catR [chC '1', .cls (fun c => '0' ≤ c && c ≤ '2')],
  catR [chC '0', cls19],
  cls19]

def strptimeFmtRE (sep : Char) (y4 : Bool) : RE :=
  catR [.grp 1 strptimeDayRE, chC sep, .grp 2 strptimeMonthRE, chC sep,
    .grp 3 (repN (if y4 then 4 else 2) clsD)]

/-- one `datetime.strptime(s, fmt)` attempt: the format regex must consume
the whole string, `%y` windows 0-68 to the 2000s, and the final
`datetime(...)` construction may still raise (`none`). -/
def tryStrptime (s : List Char) (sep : Char) (y4 : Bool) : Option PyDateTime :=
  match matchAt' (strptimeFmtRE sep y4) none s with
  | none => none
  | some (L, caps) =>
    if L = s.length then
      let d := digitsToNat (((caps.find? (fun x => x.1 = 1)).map (·.2)).getD [])
      let mth := digitsToNat (((caps.find? (fun x => x.1 = 2)).map (·.2)).getD [])
      let y0 := digitsToNat (((caps.find? (fun x => x.1 = 3)).map (·.2)).getD [])
      let y := if y4 then y0 else (if y0 ≤ 68 then 2000 + y0 else 1900 + y0)
      mkDatetime y mth d
    else none

/-- `MedicalPseudonymizer._parse_date`: try the formats
`%d-%m-%Y`, `%d/%m/%Y`, `%d-%m-%y`, `%d/%m/%y` in order. -/
def parse_date (date_str : List Char) : Option PyDateTime :=
  let s := pyStrip date_str
  match tryStrptime s '-' true with
  | some d => some d
  | none =>
    match tryStrptime s '/' true with
    | some d => some d
    | none =>
      match tryStrptime s '-' false with
      | some d => some d
      | none => tryStrptime s '/' false

/-! #### `_detect_incident_date` -/

/-- the captured date fragment: 1-2 digits, dash-or-slash, 1-2 digits,
dash-or-slash, 2-4 digits -/
def dmyFragRE : RE :=
  .grp 1 (catR [repRange 1 2 clsD, clsDashSlash, repRange 1 2 clsD, clsDashSlash,
    repRange 2 4 clsD])

def clsColonSpace : RE := .cls (fun c => c = ':' || isPySpace c)

/-- the four incident-date patterns (searched with `re.IGNORECASE`) -/
def incidentPatterns : List RE := [
  ciRE (catR [optR (catR [litS "datum", .star clsS]),
    altsR [litS "schade", litS "ongeval", litS "incident", litS "trauma"],
    .star clsS, .star clsColonSpace, dmyFragRE]),
  ciRE (catR [altsR [litS "schade", litS "ongeval", litS "incident"],
    .star clsS,
    altsR [litS "op", catR [chC 'd', optR (chC '.'), chC 'd', optR (chC '.')], litS "van"],
    .star clsS, .star clsColonSpace, dmyFragRE]),
  ciRE (catR [litS "na", plusR clsS,
    altsR [litS "val", litS "ongeval", litS "trauma"], plusR clsS,
    optR (catR [litS "op", plusR clsS]), dmyFragRE]),
  ciRE (catR [litS "trauma", plusR clsS, dmyFragRE])]

def detectIncidentGo (text : List Char) : List RE → Option PyDateTime
  | [] => none
  | p :: rest =>
    match reSearch p text with
    | some m =>
      match parse_date ((capGroup m 1).getD []) with
      | some parsed => some parsed
      | none => detectIncidentGo text rest
    | none => detectIncidentGo text rest

/-- `MedicalPseudonymizer._detect_incident_date`. -/
def detect_incident_date (text : List Char) : Option PyDateTime :=
  detectIncidentGo text incidentPatterns

/-- `MedicalPseudonymizer._date_to_relative`. -/
def date_to_relative (incident_date : Option PyDateTime) (date : PyDateTime) : String :=
  match incident_date with
  | none => "[DATUM]"
  | some inc =>
    let delta := dateDiffDays date inc
    if delta = 0 then "[T+0]"
    else if delta > 0 then "[T+" ++ toString delta ++ "]"
    else "[T" ++ toString delta ++ "]"

/-! #### the replacement passes -/

/-- `_replace_bsn` pattern 1: `\b(\d{4}[.\s]\d{2}[.\s]\d{3})\b` -/
def reMedBsn1 : RE := catR [.wb, .grp 1 (catR [repN 4 clsD,
  .cls (fun c => c = '.' || isPySpace c), repN 2 clsD,
  .cls (fun c => c = '.' || isPySpace c), repN 3 clsD]), .wb]

/-- `_replace_bsn` pattern 2: `(?<!\d)(\d{9})(?!\d)` -/
def reMedBsn2 : RE := catR [.nlb isAsciiDigit, .grp 1 (repN 9 clsD), .nla isAsciiDigit]

/-- `_replace_bsn` pattern 3: `\b(\d{3}[.-]\d{3}[.-]\d{3})\b` -/
def reMedBsn3 : RE := catR [.wb, .grp 1 (catR [repN 3 clsD,
  .cls (fun c => c = '.' || c = '-'), repN 3 clsD,
  .cls (fun c => c = '.' || c = '-'), repN 3 clsD]), .wb]

/-- `MedicalPseudonymizer._replace_bsn`: the three patterns applied in
sequence, each on the previous pass's output, with no checksum test. -/
def replace_bsn (text : List Char) (stats : List (String × Nat)) :
    List Char × List (String × Nat) :=
  [reMedBsn1, reMedBsn2, reMedBsn3].foldl (fun acc pat =>
    reSub pat (fun _ s => ("[BSN]".data, abump "bsn" s)) acc.1 acc.2) (text, stats)

/-- `_replace_iban`: `\b([A-Z]{2}\d{2}[A-Z]{4}\d{10})\b` -/
def reMedIban : RE := catR [.wb,
  .grp 1 (catR [repN 2 clsAZup, repN 2 clsD, repN 4 clsAZup, repN 10 clsD]), .wb]

def replace_iban (text : List Char) (stats : List (String × Nat)) :
    List Char × List (String × Nat) :=
  reSub reMedIban (fun _ s => ("[IBAN]".data, abump "iban" s)) text stats

def clsSpDash : RE := .cls (fun c => isPySpace c || c = '-')

/-- the six phone patterns of `_replace_phone_numbers`, in source order -/
def medPhonePatterns : List RE := [
  catR [litS "+31", .star clsS, litS "6", optR clsSpDash, repN 4 clsD, optR clsSpDash,
    repN 4 clsD],
  catR [litS "+31", .star clsS, litS "6", optR clsSpDash, repN 8 clsD],
  catR [litS "+31", .star clsS, repRange 2 3 clsD, optR clsSpDash, repRange 6 7 clsD],
  catR [.wb, litS "06", optR clsSpDash, repN 4 clsD, optR clsSpDash, repN 4 clsD, .wb],
  catR [.wb, litS "06", optR clsSpDash, repN 8 clsD, .wb],
  catR [.wb, litS "0", repRange 2 3 clsD, optR clsSpDash, repRange 6 7 clsD, .wb]]

/-- `MedicalPseudonymizer._replace_phone_numbers` (sequential passes). -/
def replace_phone_numbers (text : List Char) (stats : List (String × Nat)) :
    List Char × List (String × Nat) :=
  medPhonePatterns.foldl (fun acc pat =>
    reSub pat (fun _ s => ("[TELEFOON]".data, abump "phone" s)) acc.1 acc.2) (text, stats)

/-- `_replace_email`: `\b[A-Za-z0-9._%+-]+@[A-Za-z0-9.-]+\.[A-Z|a-z]{2,}\b`
(note: the final class literally contains `|`). -/
def reMedEmail : RE := catR [.wb,
  plusR (.cls (fun c => isAsciiUpperCh c || isAsciiLowerCh c || isAsciiDigit c ||
    c = '.' || c = '_' || c = '%' || c = '+' || c = '-')),
  chC '@',
  plusR (.cls (fun c => isAsciiUpperCh c || isAsciiLowerCh c || isAsciiDigit c ||
    c = '.' || c = '-')),
  chC '.',
  atLeastR 2 (.cls (fun c => isAsciiUpperCh c || c = '|' || isAsciiLowerCh c)),
  .wb]

def replace_email (text : List Char) (stats : List (String × Nat)) :
    List Char × List (String × Nat) :=
  reSub reMedEmail (fun _ s => ("[EMAIL]".data, abump "email" s)) text stats

/-- `_replace_postal_codes`: `\b(\d{4}\s?[A-Z]{2})\b` -/
def reMedPostal : RE := catR [.wb,
  .grp 1 (catR [repN 4 clsD, optR clsS, repN 2 clsAZup]), .wb]

def replace_postal_codes (text : List Char) (stats : List (String × Nat)) :
    List Char × List (String × Nat) :=
  reSub reMedPostal (fun _ s => ("[POSTCODE]".data, abump "postal_codes" s)) text stats

def clsMedLower : RE := .cls (fun c => isAsciiLowerCh c ||
  c = 'é' || c = 'ë' || c = 'ï' || c = 'ö' || c = 'ü')

def clsMedLowerUp : RE := .cls (fun c => isAsciiLowerCh c ||
  c = 'é' || c = 'ë' || c = 'ï' || c = 'ö' || c = 'ü' || isAsciiUpperCh c)

def clsMedAddrBody : RE := .cls (fun c => isAsciiLowerCh c ||
  c = 'é' || c = 'ë' || c = 'ï' || c = 'ö' || c = 'ü' || isAsciiUpperCh c || isPySpace c)

/-- the street pattern of `_replace_addresses` (with `re.IGNORECASE`):
street body, a street suffix, a house number and an optional addition. -/
def reMedAddr : RE := ciRE (.grp 1 (catR [clsAZup, plusR clsMedAddrBody,
  altLitS ["straat", "laan", "weg", "plein", "singel", "gracht", "kade", "dreef",
    "hof", "park", "baan", "dijk"],
  plusR clsS, plusR clsD,
  optR (altsR [
    catR [optR clsDashSlash, .star clsD],
    .star (.cls (fun c => isAsciiLowerCh c || isAsciiUpperCh c || c = '-'))])]))

/-- the replacement closure of `_replace_addresses`: bump the statistics,
increment the address counter, emit a fresh numbered label -/
def addressReplacer (_m : RMatch) (s : Nat × List (String × Nat)) :
    List Char × (Nat × List (String × Nat)) :=
  let stats' := abump "addresses" s.2
  let cnt' := s.1 + 1
  (("[ADRES_" ++ toString cnt' ++ "]").data, (cnt', stats'))

/-- `MedicalPseudonymizer._replace_addresses`: every match gets a fresh
numbered `[ADRES_n]` label (no registry involved). -/
def replace_addresses (text : List Char) (address_counter : Nat)
    (stats : List (String × Nat)) : List Char × Nat × List (String × Nat) :=
  let r := reSub reMedAddr addressReplacer text (address_counter, stats)
  (r.1, r.2.1, r.2.2)

/-- the three birth-date patterns (with `re.IGNORECASE`) -/
def medBirthPatterns : List RE := [
  ciRE (catR [.grp 1 (catR [litS "geb",
      optR (altsR [litS "oortedatum", litS "."])]),
    .star clsS, .star clsColonSpace, .grp 2 (catR [repRange 1 2 clsD, clsDashSlash,
      repRange 1 2 clsD, clsDashSlash, repRange 2 4 clsD])]),
  ciRE (catR [.grp 1 (catR [litS "geboren", plusR clsS,
      optR (catR [litS "op", plusR clsS])]),
    .star clsS, .grp 2 (catR [repRange 1 2 clsD, clsDashSlash,
      repRange 1 2 clsD, clsDashSlash, repRange 2 4 clsD])]),
  ciRE (catR [.grp 1 (litS "DOB"),
    .star clsS, .star clsColonSpace, .grp 2 (catR [repRange 1 2 clsD, clsDashSlash,
      repRange 1 2 clsD, clsDashSlash, repRange 2 4 clsD])])]

/-- `MedicalPseudonymizer._replace_birth_dates` (sequential passes;
keeps the keyword prefix, group 1). -/
def replace_birth_dates (text : List Char) (stats : List (String × Nat)) :
    List Char × List (String × Nat) :=
  medBirthPatterns.foldl (fun acc pat =>
    reSub pat (fun m s =>
      (((capGroup m 1).getD []) ++ " [GEBOORTEDATUM]".data, abump "birth_dates" s))
      acc.1 acc.2) (text, stats)

/-- `_replace_dates` pattern: day group, dash-or-slash, month group,
dash-or-slash, 2-4 digit year group, inside word boundaries -/
def reMedDate : RE := catR [.wb, .grp 1 (repRange 1 2 clsD), clsDashSlash,
  .grp 2 (repRange 1 2 clsD), clsDashSlash, .grp 3 (repRange 2 4 clsD), .wb]

/-- the replacement closure of `_replace_dates`: parse the three groups,
window two-digit years, range-check day and month, build the `datetime`
(whose `ValueError` leaves the match unchanged), and relabel. -/
def dateReplacer (incident_date : Option PyDateTime) (m : RMatch)
    (stats : List (String × Nat)) : List Char × List (String × Nat) :=
  let day := digitsToNat ((capGroup m 1).getD [])
  let month := digitsToNat ((capGroup m 2).getD [])
  let year0 := digitsToNat ((capGroup m 3).getD [])
  let year := if year0 < 100 then (if year0 < 50 then 2000 + year0 else 1900 + year0)
    else year0
  if 1 ≤ day && day ≤ 31 && 1 ≤ month && month ≤ 12 then
    match mkDatetime year month day with
    | some date => ((date_to_relative incident_date date).data, abump "dates" stats)
    | none => (m.text, stats)
  else (m.text, stats)

/-- `MedicalPseudonymizer._replace_dates`. -/
def replace_dates (incident_date : Option PyDateTime) (text : List Char)
    (stats : List (String × Nat)) : List Char × List (String × Nat) :=
  reSub reMedDate (dateReplacer incident_date) text stats

/-! #### `_replace_names`: the eight-pattern cascade -/

/-- the state threaded through `_replace_names`: name mapping, name counter,
statistics -/
abbrev NameSt := List (List Char × String) × Nat × List (String × Nat)

/-- count a name and produce its registry pseudonym -/
def nmPseudo (full : List Char) (s : NameSt) : List Char × NameSt :=
  let (mapping, counter, stats) := s
  let stats' := abump "names" stats
  let (lbl, mapping', counter') := get_person_pseudonym full mapping counter
  (lbl.data, (mapping', counter', stats'))

/-- pattern 0: international given name + particle + surname -/
def reMedIntl : RE := catR [.wb,
  .grp 1 (catR [clsAZup, plusR clsMedLower]), plusR clsS,
  .grp 2 (altLitS ["El", "Al", "Ben", "Ibn", "Abu", "Bin"]), plusR clsS,
  .grp 3 (catR [clsAZup, plusR clsMedLowerUp]), .wb]

def intlRepl (m : RMatch) (s : NameSt) : List Char × NameSt := nmPseudo m.text s

/-- pattern 1: double surname with hyphenated tussenvoegsel -/
def reMedDouble : RE := catR [.wb,
  .grp 1 (catR [clsAZup, plusR clsMedLower]), plusR clsS,
  optR (.grp 2 (catR [altLitS ["de", "van", "den", "der", "het", "ter", "ten"], plusR clsS])),
  .grp 3 (catR [clsAZup, plusR clsMedLower]),
  .grp 4 (catR [chC '-', altLitS ["van", "de", "den", "der"], plusR clsS,
    clsAZup, plusR clsMedLower]), .wb]

def doubleRepl (m : RMatch) (s : NameSt) : List Char × NameSt := nmPseudo m.text s

/-- pattern 2: given name + tussenvoegsel + surname -/
def reMedDutch : RE := catR [.wb,
  .grp 1 (catR [clsAZup, plusR clsMedLower]), plusR clsS,
  .grp 2 (altLitS ["van", "de", "den", "der", "het", "ter", "ten"]),
  optR (.grp 3 (catR [plusR clsS, altLitS ["de", "den", "der", "het"]])),
  plusR clsS,
  .grp 4 (catR [clsAZup, plusR clsMedLower]), .wb]

def dutchRepl (m : RMatch) (s : NameSt) : List Char × NameSt :=
  if containsSub m.text "[PERSOON_".data then (m.text, s) else nmPseudo m.text s

/-- pattern 3 (`re.IGNORECASE`): title + optional initial + optional
tussenvoegsel + surname; the title (group 1) is kept. -/
def reMedTitle : RE := ciRE (catR [.wb,
  .grp 1 (catR [altLitS ["Dr", "Drs", "Mr", "Mw", "Mevr", "Dhr", "Prof", "Ir", "Ing"],
    optR (chC '.'), plusR clsS]),
  optR (.grp 2 (catR [clsAZup, optR (chC '.'), .star clsS])),
  optR (.grp 3 (catR [.star (.cls isAsciiLowerCh), .star clsS])),
  optR (.grp 4 (catR [altLitS ["van", "de", "den", "der", "het", "ter", "ten"], plusR clsS,
    optR (altsR [catR [litS "de", plusR clsS], catR [litS "den", plusR clsS],
      catR [litS "der", plusR clsS]])])),
  .grp 5 (catR [clsAZup, plusR clsMedLower]), .wb])

def titleRepl (m : RMatch) (s : NameSt) : List Char × NameSt :=
  if containsSub m.text "[PERSOON_".data then (m.text, s)
  else
    let title := (capGroup m 1).getD []
    let rest := m.text.drop title.length
    let (mapping, counter, stats) := s
    let stats' := abump "names" stats
    let (lbl, mapping', counter') := get_person_pseudonym rest mapping counter
    (title ++ lbl.data, (mapping', counter', stats'))

/-- pattern 4: initials + optional tussenvoegsel + surname -/
def reMedInitials : RE := catR [.wb,
  .grp 1 (catR [clsAZup, chC '.', .star (catR [optR clsS, clsAZup, chC '.'])]),
  .star clsS,
  optR (.grp 2 (catR [altLitS ["van", "de", "den", "der", "het", "ter", "ten"], plusR clsS,
    optR (altsR [catR [litS "de", plusR clsS], catR [litS "den", plusR clsS]])])),
  .grp 3 (catR [clsAZup, plusR clsMedLower]), .wb]

def initialsRepl (m : RMatch) (s : NameSt) : List Char × NameSt :=
  if containsSub m.text "[PERSOON_".data then (m.text, s) else nmPseudo m.text s

/-- pattern 5 (`re.IGNORECASE`): honorific + surname; the honorific
(group 1) is kept. -/
def reMedHonorific : RE := ciRE (catR [.wb,
  .grp 1 (catR [altsR [litS "mevrouw", litS "meneer",
    catR [litS "geachte", plusR clsS, altsR [litS "heer", litS "mevrouw"]]], plusR clsS]),
  optR (.grp 2 (catR [altLitS ["van", "de", "den", "der"], plusR clsS])),
  .grp 3 (catR [clsAZup, plusR clsMedLower]), .wb])

def honorificRepl (m : RMatch) (s : NameSt) : List Char × NameSt :=
  if containsSub m.text "[PERSOON_".data then (m.text, s)
  else
    let honorific := (capGroup m 1).getD []
    let name_part := m.text.drop honorific.length
    let (mapping, counter, stats) := s
    let stats' := abump "names" stats
    let (lbl, mapping', counter') := get_person_pseudonym name_part mapping counter
    (honorific ++ lbl.data, (mapping', counter', stats'))

/-- pattern 6: given name + single initial with a dot -/
def reMedNameInitial : RE := catR [.wb,
  .grp 1 (catR [clsAZup, atLeastR 2 clsMedLower]), plusR clsS,
  .grp 2 clsAZup, chC '.']

def nameInitialRepl (m : RMatch) (s : NameSt) : List Char × NameSt :=
  if containsSub m.text "[PERSOON_".data then (m.text, s) else nmPseudo m.text s

/-- pattern 7: plain capitalized pair -/
def reMedSimple : RE := catR [.wb,
  .grp 1 (catR [clsAZup, atLeastR 2 clsMedLower]), plusR clsS,
  .grp 2 (catR [clsAZup, atLeastR 2 clsMedLower]), .wb]

/-- the `non_names` stoplist of `_replace_names` -/
def nonNames : List String :=
  ["Adres", "Telefoon", "Email", "Datum", "Betreft", "Locatie", "Oost",
   "West", "Noord", "Zuid", "Amsterdam", "Rotterdam", "Utrecht",
   "Praktijk", "Polikliniek", "Orthopedie", "Indicatie", "Conclusie",
   "Bevindingen", "Beleid", "Plan", "Subjectief", "Objectief",
   "Consult", "Brief", "Verslag", "Document", "Intake", "Categorie"]

def simpleRepl (m : RMatch) (s : NameSt) : List Char × NameSt :=
  let full := m.text
  let first := (capGroup m 1).getD []
  let second := (capGroup m 2).getD []
  if containsSub full "[PERSOON_".data then (full, s)
  else if nonNames.any (fun w => w.data = first) || nonNames.any (fun w => w.data = second) then
    (full, s)
  else if ["Locatie", "Praktijk", "Afdeling"].any (fun w => containsSub full w.data) then
    (full, s)
  else nmPseudo full s

/-- `MedicalPseudonymizer._replace_names`: the eight substitutions in
source order, each on the previous result. -/
def replace_names (text : List Char) (mapping : List (List Char × String))
    (counter : Nat) (stats : List (String × Nat)) :
    List Char × List (List Char × String) × Nat × List (String × Nat) :=
  let s0 : NameSt := (mapping, counter, stats)
  let r0 := reSub reMedIntl intlRepl text s0
  let r1 := reSub reMedDouble doubleRepl r0.1 r0.2
  let r2 := reSub reMedDutch dutchRepl r1.1 r1.2
  let r3 := reSub reMedTitle titleRepl r2.1 r2.2
  let r4 := reSub reMedInitials initialsRepl r3.1 r3.2
  let r5 := reSub reMedHonorific honorificRepl r4.1 r4.2
  let r6 := reSub reMedNameInitial nameInitialRepl r5.1 r5.2
  let r7 := reSub reMedSimple simpleRepl r6.1 r6.2
  (r7.1, r7.2)

/-! #### identifier passes -/

/-- `_replace_kvk`: `\b(?:KvK|kvk)\s*[:\s]*(\d{8})\b` with `re.IGNORECASE` -/
def reMedKvk : RE := ciRE (catR [.wb, altsR [litS "KvK", litS "kvk"],
  .star clsS, .star clsColonSpace, .grp 1 (repN 8 clsD), .wb])

def replace_kvk (text : List Char) (stats : List (String × Nat)) :
    List Char × List (String × Nat) :=
  reSub reMedKvk (fun _ s => ("KvK [KVK_NUMMER]".data, abump "kvk" s)) text stats

def clsAZ09dash : RE := .cls (fun c => isAsciiUpperCh c || isAsciiDigit c || c = '-')

/-- the four policy/damage-number patterns with their statistics keys -/
def medPolicyPatterns : List (RE × String) := [
  (ciRE (catR [.grp 1 (catR [litS "Polis", optR (litS "nummer")]),
    .star clsS, .star clsColonSpace, .grp 2 (plusR clsAZ09dash)]), "polis"),
  (ciRE (catR [.grp 1 (altsR [catR [litS "Schade", optR (litS "nummer")],
      catR [litS "Schadenr", optR (chC '.')]]),
    .star clsS, .star clsColonSpace, .grp 2 (plusR clsAZ09dash)]), "schade"),
  (ciRE (catR [.wb, .grp 1 (catR [litS "POL-", plusR clsAZup, chC '-', repN 4 clsD,
    chC '-', plusR clsD]), .wb]), "polis"),
  (ciRE (catR [.wb, .grp 1 (catR [litS "SCH-", repN 4 clsD, chC '-', repN 2 clsD,
    chC '-', plusR clsD]), .wb]), "schade")]

def policyRepl (key : String) (m : RMatch) (stats : List (String × Nat)) :
    List Char × List (String × Nat) :=
  let stats' := abump (key ++ "_numbers") stats
  if lastIndex m ≥ 2 then
    (((capGroup m 1).getD []) ++ (": [" ++ String.mk (pyUpper key.data) ++ "_NUMMER]").data,
      stats')
  else
    (("[" ++ String.mk (pyUpper key.data) ++ "_NUMMER]").data, stats')

/-- `MedicalPseudonymizer._replace_policy_numbers` (sequential passes). -/
def replace_policy_numbers (text : List Char) (stats : List (String × Nat)) :
    List Char × List (String × Nat) :=
  medPolicyPatterns.foldl (fun acc p =>
    reSub p.1 (policyRepl p.2) acc.1 acc.2) (text, stats)

/-- `_replace_patient_ids` pattern (with `re.IGNORECASE`) -/
def reMedPatientId : RE := ciRE (catR [.wb,
  .grp 1 (catR [altsR [litS "patiënt", litS "patient", litS "cliënt", litS "client"],
    optR clsSpDash, optR (altsR [litS "ID", litS "id", litS "nummer"])]),
  .star clsS, .star clsColonSpace,
  .grp 2 (catR [plusR (.cls (fun c => isAsciiUpperCh c || isAsciiDigit c)), chC '-',
    plusR (.cls (fun c => isAsciiUpperCh c || isAsciiDigit c)), chC '-', plusR clsD]),
  .wb])

def replace_patient_ids (text : List Char) (stats : List (String × Nat)) :
    List Char × List (String × Nat) :=
  reSub reMedPatientId (fun m s =>
    (((capGroup m 1).getD []) ++ ": [PATIENT_ID]".data, abump "patient_ids" s)) text stats

/-! #### `pseudonymize` -/

/-- the warning emitted when no incident date could be established -/
def skipWarningMsg : String :=
  "Geen ongevalsdatum gevonden. Datums worden als [DATUM] weergegeven. Vul de ongevalsdatum handmatig in voor relatieve datums."

/-- `MedicalPseudonymizer.pseudonymize`: resets the per-run state
(registry, counters, statistics, warnings), establishes the incident date
(kept from the object if already set, else detected, else a warning), runs
the passes in the fixed order, and returns the updated object state and the
result record. -/
def pseudonymize (self : MedState) (text : String) : MedState × PseudonymizationResult :=
  let (incident, warnings) :=
    match self.incident_date with
    | some d => (some d, ([] : List String))
    | none =>
      match detect_incident_date text.data with
      | some detected => (some detected, ([] : List String))
      | none => (none, [skipWarningMsg])
  let (r1, stats1) := replace_birth_dates text.data []
  let (r2, stats2) := replace_bsn r1 stats1
  let (r3, stats3) := replace_iban r2 stats2
  let (r4, stats4) := replace_patient_ids r3 stats3
  let (r5, stats5) := replace_policy_numbers r4 stats4
  let (r6, stats6) := replace_kvk r5 stats5
  let (r7, stats7) := replace_email r6 stats6
  let (r8, stats8) := replace_phone_numbers r7 stats7
  let (r9, cnt9, stats9) := replace_addresses r8 0 stats8
  let (r10, stats10) := replace_postal_codes r9 stats9
  let (r11, mapping11, counter11, stats11) := replace_names r10 [] 0 stats10
  let (r12, stats12) := replace_dates incident r11 stats11
  (⟨incident, mapping11, counter11, cnt9, stats12, warnings⟩,
   ⟨text, String.mk r12, mapping11, stats12, incident, warnings⟩)

/-- `pseudonymize_text` (the module-level convenience function). -/
def pseudonymize_text (text : String) (incident_date : Option PyDateTime) :
    MedState × PseudonymizationResult :=
  pseudonymize (mkMedicalPseudonymizer incident_date) text

/-! ### Support definitions for the verification statements -/

/-- Modelled from the spec (§4.4): the banded relative-date label, selected
by the magnitude of the signed day delta in ascending bands (1 day exact;
2-6 days; 7-13 one week; 14-27 weeks rounded to the nearest week; 28-59 one
to two months rounded to the nearest month; 60-364 months; 365-729 years
with a secondary years-plus-months form when the remainder rounded to the
nearest month is at least 2; 730 and beyond years rounded to one decimal),
with the sign rendered as a leading plus or minus. -/
def relLabelSpec (δ : Int) : String :=
  if δ = 0 then "[ONGEVAL]"
  else
    let a : Int := |δ|
    let sign := if δ > 0 then "+" else "-"
    if a = 1 then "[" ++ sign ++ "1 dag]"
    else if 2 ≤ a ∧ a ≤ 6 then "[" ++ sign ++ toString a ++ " dagen]"
    else if 7 ≤ a ∧ a ≤ 13 then "[" ++ sign ++ "1 week]"
    else if 14 ≤ a ∧ a ≤ 27 then
      "[" ++ sign ++ toString (pyRoundFrac a 7) ++ " weken]"
    else if 28 ≤ a ∧ a ≤ 59 then
      let mnd := pyRoundFrac a 30
      "[" ++ sign ++ toString mnd ++ (if mnd = 1 then " maand]" else " maanden]")
    else if 60 ≤ a ∧ a ≤ 364 then
      "[" ++ sign ++ toString (pyRoundFrac a 30) ++ " maanden]"
    else if 365 ≤ a ∧ a ≤ 729 then
      let rest := pyRoundFrac (a % 365) 30
      if 2 ≤ rest then "[" ++ sign ++ "1 jaar, " ++ toString rest ++ " mnd]"
      else "[" ++ sign ++ "1 jaar]"
    else "[" ++ sign ++ renderTenths (pyRoundFrac (10 * a) 365) ++ " jaar]"

/-- record a normalized key the first time it is seen -/
def addKey (seen : List (List Char)) (k : List Char) : List (List Char) :=
  if seen.contains k then seen else seen ++ [k]

/-- the distinct normalized keys of a sighting sequence, in order of first
sighting, continuing from `seen` -/
def keysFrom (seen : List (List Char)) : List (List Char) → List (List Char)
  | [] => seen
  | n :: rest => keysFrom (addKey seen (normalize_name n)) rest

def keysOf (l : List (List Char)) : List (List Char) := keysFrom [] l

/-- the registry contents determined by a key list: the `i`-th key (from
`start`) maps to `[PERSOON_(start+i+1)]` -/
def labelKeys (ks : List (List Char)) (start : Nat) : List (List Char × String) :=
  match ks with
  | [] => []
  | k :: rest => (k, "[PERSOON_" ++ toString (start + 1) ++ "]") :: labelKeys rest (start + 1)

/-- process a sequence of name sightings through
`_get_person_pseudonym`, collecting the returned labels -/
def runPersonPseudonyms : List (List Char) → List (List Char × String) → Nat →
    List String × List (List Char × String) × Nat
  | [], mapping, counter => ([], mapping, counter)
  | n :: rest, mapping, counter =>
    let r0 := get_person_pseudonym n mapping counter
    let r := runPersonPseudonyms rest r0.2.1 r0.2.2
    (r0.1 :: r.1, r.2)

/-! ## Verification -/

/-! ### Stable-sort lemmas -/

theorem insertStable_perm {α : Type} (le : α → α → Bool) (x : α) (l : List α) :
    List.Perm (insertStable le x l) (x :: l) := by
  induction l with
  | nil => simp [insertStable]
  | cons y rest ih =>
    by_cases hy : le y x = true
    · simp only [insertStable, hy, if_pos]
      exact (ih.cons y).trans (List.Perm.swap x y rest)
    · simp [insertStable, hy]

theorem pySorted_perm {α : Type} (le : α → α → Bool) (l : List α) :
    List.Perm (pySorted le l) l := by
  suffices h : ∀ acc : List α,
      List.Perm (l.foldl (fun acc x => insertStable le x acc) acc) (acc ++ l) by
    simpa using h []
  induction l with
  | nil => intro acc; simp
  | cons x rest ih =>
    intro acc
    simp only [List.foldl_cons]
    refine (ih (insertStable le x acc)).trans ?_
    have h1 : List.Perm (insertStable le x acc ++ rest) ((x :: acc) ++ rest) :=
      (insertStable_perm le x acc).append_right rest
    refine h1.trans ?_
    simp only [List.cons_append]
    exact (List.perm_middle.symm :
      List.Perm (x :: (acc ++ rest)) (acc ++ x :: rest))

theorem insertStable_pairwise {α : Type} (le : α → α → Bool)
    (htrans : ∀ a b c, le a b = true → le b c = true → le a c = true)
    (htotal : ∀ a b, le a b = true ∨ le b a = true) (x : α) (l : List α)
    (h : l.Pairwise (fun a b => le a b = true)) :
    (insertStable le x l).Pairwise (fun a b => le a b = true) := by
  induction l with
  | nil => simp [insertStable]
  | cons y rest ih =>
    rcases List.pairwise_cons.mp h with ⟨hy_rest, h_rest⟩
    by_cases hy : le y x = true
    · simp only [insertStable, hy, if_pos]
      refine List.pairwise_cons.mpr ⟨?_, ih h_rest⟩
      intro z hz
      rcases List.mem_cons.mp ((insertStable_perm le x rest).mem_iff.mp hz) with rfl | hz'
      · exact hy
      · exact hy_rest z hz'
    · rcases htotal x y with hxy | hyx
      · simp only [insertStable, hy, if_neg, Bool.false_eq_true, not_false_iff]
        refine List.pairwise_cons.mpr ⟨?_, h⟩
        intro z hz
        rcases List.mem_cons.mp hz with rfl | hz'
        · exact hxy
        · exact htrans x y z hxy (hy_rest z hz')
      · exact absurd hyx hy

theorem pySorted_pairwise {α : Type} (le : α → α → Bool)
    (htrans : ∀ a b c, le a b = true → le b c = true → le a c = true)
    (htotal : ∀ a b, le a b = true ∨ le b a = true) (l : List α) :
    (pySorted le l).Pairwise (fun a b => le a b = true) := by
  suffices h : ∀ acc : List α, acc.Pairwise (fun a b => le a b = true) →
      (l.foldl (fun acc x => insertStable le x acc) acc).Pairwise
        (fun a b => le a b = true) by
    exact h [] (by simp)
  induction l with
  | nil => intro acc hacc; simpa using hacc
  | cons x rest ih =>
    intro acc hacc
    exact ih _ (insertStable_pairwise le htrans htotal x acc hacc)

theorem insertStable_of_all {α : Type} (le : α → α → Bool) (x : α) (l : List α)
    (h : ∀ y ∈ l, le y x = true) : insertStable le x l = l ++ [x] := by
  induction l with
  | nil => simp [insertStable]
  | cons y rest ih =>
    have hy := h y (by simp)
    simp [insertStable, hy, ih (fun z hz => h z (by simp [hz]))]

theorem pySorted_of_sorted {α : Type} (le : α → α → Bool) (l : List α)
    (h : l.Pairwise (fun a b => le a b = true)) : pySorted le l = l := by
  suffices haux : ∀ (l' : List α) (acc : List α),
      (acc ++ l').Pairwise (fun a b => le a b = true) →
      l'.foldl (fun acc x => insertStable le x acc) acc = acc ++ l' by
    simpa using haux l [] (by simpa using h)
  intro l'
  induction l' with
  | nil => intro acc _; simp
  | cons x rest ih =>
    intro acc hp
    simp only [List.foldl_cons]
    have hparts := List.pairwise_append.mp hp
    have hall : ∀ y ∈ acc, le y x = true := fun y hy =>
      hparts.2.2 y hy x (by simp)
    rw [insertStable_of_all le x acc hall]
    have hp' : ((acc ++ [x]) ++ rest).Pairwise (fun a b => le a b = true) := by
      simpa using hp
    rw [ih (acc ++ [x]) hp']
    simp

/-! ### Greedy-filter lemmas -/

theorem greedyFilter_sublist (l : List Gevonden) (c : Int) :
    List.Sublist (greedyFilter l c) l := by
  induction l generalizing c with
  | nil => simp [greedyFilter]
  | cons v rest ih =>
    by_cases hv : (gStart v : Int) ≥ c
    · simpa [greedyFilter, hv] using (ih (gEind v)).cons₂ v
    · simpa [greedyFilter, hv] using (ih c).cons v

theorem greedyFilter_start_ge (l : List Gevonden)
    (h : l.Pairwise (fun a b => gStart a ≤ gStart b)) (c : Int) :
    ∀ x ∈ greedyFilter l c, c ≤ (gStart x : Int) := by
  induction l generalizing c with
  | nil => simp [greedyFilter]
  | cons v rest ih =>
    rcases List.pairwise_cons.mp h with ⟨hv_rest, h_rest⟩
    by_cases hv : (gStart v : Int) ≥ c
    · intro x hx
      simp only [greedyFilter, hv, if_pos] at hx
      rcases List.mem_cons.mp hx with rfl | hx'
      · exact hv
      · have hmem : x ∈ rest := (greedyFilter_sublist rest _).subset hx'
        have h2 := hv_rest x hmem
        have h3 : (gStart v : Int) ≤ gStart x := by exact_mod_cast h2
        exact le_trans hv h3
    · intro x hx
      simp only [greedyFilter, hv, if_neg, not_false_iff] at hx
      exact ih h_rest c x hx

theorem greedyFilter_chain (l : List Gevonden)
    (h : l.Pairwise (fun a b => gStart a ≤ gStart b)) (c : Int) :
    List.Chain' (fun a b => gEind a ≤ gStart b) (greedyFilter l c) := by
  induction l generalizing c with
  | nil => simp [greedyFilter]
  | cons v rest ih =>
    rcases List.pairwise_cons.mp h with ⟨_, h_rest⟩
    by_cases hv : (gStart v : Int) ≥ c
    · simp only [greedyFilter, hv, if_pos]
      refine List.chain'_cons'.mpr ⟨?_, ih h_rest (gEind v)⟩
      intro y hy
      have h1 := greedyFilter_start_ge rest h_rest (gEind v) y (List.mem_of_mem_head? hy)
      exact_mod_cast h1
    · simp only [greedyFilter, hv, if_neg, not_false_iff]
      exact ih h_rest c

theorem greedyFilter_nonoverlap (l : List Gevonden)
    (h : l.Pairwise (fun a b => gStart a ≤ gStart b)) (c : Int) :
    (greedyFilter l c).Pairwise
      (fun a b => ¬(gStart a < gEind b ∧ gStart b < gEind a)) := by
  induction l generalizing c with
  | nil => simp [greedyFilter]
  | cons v rest ih =>
    rcases List.pairwise_cons.mp h with ⟨_, h_rest⟩
    by_cases hv : (gStart v : Int) ≥ c
    · simp only [greedyFilter, hv, if_pos]
      refine List.pairwise_cons.mpr ⟨?_, ih h_rest (gEind v)⟩
      intro y hy hcon
      have h1 := greedyFilter_start_ge rest h_rest (gEind v) y hy
      have h2 : gEind v ≤ gStart y := by exact_mod_cast h1
      omega
    · simp only [greedyFilter, hv, if_neg, not_false_iff]
      exact ih h_rest c

theorem leKeyStart_trans (a b c : Gevonden) (h1 : leKeyStart a b = true)
    (h2 : leKeyStart b c = true) : leKeyStart a c = true := by
  simp only [leKeyStart, decide_eq_true_eq] at *
  omega

theorem leKeyStart_total (a b : Gevonden) :
    leKeyStart a b = true ∨ leKeyStart b a = true := by
  simp only [leKeyStart, decide_eq_true_eq]
  omega

theorem leKeyLex_trans (a b c : Gevonden) (h1 : leKeyLex a b = true)
    (h2 : leKeyLex b c = true) : leKeyLex a c = true := by
  simp only [leKeyLex, Bool.or_eq_true, Bool.and_eq_true, decide_eq_true_eq] at *
  omega

theorem leKeyLex_total (a b : Gevonden) :
    leKeyLex a b = true ∨ leKeyLex b a = true := by
  simp only [leKeyLex, Bool.or_eq_true, Bool.and_eq_true, decide_eq_true_eq]
  omega

theorem leKeyLex_imp_start (a b : Gevonden) (h : leKeyLex a b = true) :
    leKeyStart a b = true := by
  simp only [leKeyLex, leKeyStart, Bool.or_eq_true, Bool.and_eq_true,
    decide_eq_true_eq] at *
  omega

/-- C2: the span-resolution step of `Pseudonimiseerder.pseudonimiseer`
sorts candidates ascending by start offset with ties broken
longest-span-first (the stable re-sort by start offset leaves the
`(start, -(length))`-sorted list unchanged), accepts a span iff its start
is at least the end of the last accepted span starting from the `-1`
sentinel cursor, and the accepted spans are sorted by start, have each
end at most the next start, and are pairwise non-overlapping
(no two accepted `a`, `b` with `a.start < b.end` and `b.start < a.end`). -/
theorem C2_span_resolution :
    ∀ l : List Gevonden,
      resolveVervangingen l = greedyFilter (pySorted leKeyLex l) (-1)
      ∧ (resolveVervangingen l).Pairwise (fun a b => gStart a ≤ gStart b)
      ∧ List.Chain' (fun a b => gEind a ≤ gStart b) (resolveVervangingen l)
      ∧ (resolveVervangingen l).Pairwise
          (fun a b => ¬(gStart a < gEind b ∧ gStart b < gEind a)) := by
  intro l
  have hsort₁ := pySorted_pairwise leKeyLex leKeyLex_trans leKeyLex_total l
  have hstart : (pySorted leKeyLex l).Pairwise (fun a b => leKeyStart a b = true) :=
    hsort₁.imp (fun h => leKeyLex_imp_start _ _ h)
  have hid : pySorted leKeyStart (pySorted leKeyLex l) = pySorted leKeyLex l :=
    pySorted_of_sorted _ _ hstart
  have hres : resolveVervangingen l = greedyFilter (pySorted leKeyLex l) (-1) := by
    unfold resolveVervangingen
    simp only []
    rw [hid]
  have hpair : (pySorted leKeyLex l).Pairwise (fun a b => gStart a ≤ gStart b) := by
    refine hstart.imp ?_
    intro a b h
    simpa [leKeyStart] using h
  refine ⟨hres, ?_, ?_, ?_⟩ <;> rw [hres]
  · exact List.Pairwise.sublist (greedyFilter_sublist _ _) hpair
  · exact greedyFilter_chain _ hpair _
  · exact greedyFilter_nonoverlap _ hpair _

/-! ### C10: the result record preserves the input -/

/-- C10: for every engine state and input text, the result record returned
by `MedicalPseudonymizer.pseudonymize` carries the input string unchanged in
its `original_text` field (the only field besides `pseudonymized_text`,
`replacements`, `statistics`, `incident_date` and `warnings`); the input is
never mutated. -/
theorem C10_original_text_preserved :
    ∀ (st : MedState) (t : String), (pseudonymize st t).2.original_text = t := by
  intro st t
  unfold pseudonymize
  rcases st.incident_date with _ | d
  · rcases h : detect_incident_date t.data with _ | dd <;> simp [h]
  · simp

/-! ### C3: per-run state and cross-run leakage -/

/-- C3 counterexample: running the same engine object on a second document
does not reproduce the fresh-engine output.  A fresh `Pseudonimiseerder`
turns the sole date of `"10-12-2025"` into `[ONGEVAL]`, but after a
previous run on `"12-12-2025"` the same object labels it `[-2 dagen]`
(the reference date and date pool carried over).  Likewise a fresh
`MedicalPseudonymizer` turns `"12-12-2025"` into `[DATUM]`, but after a
previous run on `"trauma 18-11-2025."` the same object emits `[T+24]`
(the auto-detected incident date carried over). -/
theorem C3_counterexample :
    ((pseudonimiseerS ((pseudonimiseerS (mkPseudonimiseerder true none) "12-12-2025").2)
        "10-12-2025").1 = "[-2 dagen]"
      ∧ (pseudonimiseerS (mkPseudonimiseerder true none) "10-12-2025").1 = "[ONGEVAL]"
      ∧ ("[-2 dagen]" : String) ≠ "[ONGEVAL]")
    ∧ ((pseudonymize ((pseudonymize (mkMedicalPseudonymizer none) "trauma 18-11-2025.").1)
        "12-12-2025").2.pseudonymized_text = "[T+24]"
      ∧ (pseudonymize (mkMedicalPseudonymizer none) "12-12-2025").2.pseudonymized_text
        = "[DATUM]") :=
  ⟨⟨by decide, by decide, by decide⟩, by decide, by decide⟩

/-- C3 amended: `MedicalPseudonymizer.pseudonymize` resets the registry,
counters, statistics and warnings at the start of each run — its behaviour
depends only on the engine's `incident_date` — but an auto-detected
incident date is stored on the engine and carries over to later runs;
`Pseudonimiseerder.pseudonimiseer` resets nothing, and in particular the
auto-derived reference date persists on the object after a run. -/
theorem C3_state_reset_amended :
    (∀ (s₁ s₂ : MedState) (t : String), s₁.incident_date = s₂.incident_date →
      pseudonymize s₁ t = pseudonymize s₂ t)
    ∧ (pseudonymize (mkMedicalPseudonymizer none) "trauma 18-11-2025.").1.incident_date
      = some ⟨2025, 11, 18⟩
    ∧ (pseudonimiseerS (mkPseudonimiseerder true none) "12-12-2025").2.referentie_datum
      = some ⟨2025, 12, 12⟩ := by
  refine ⟨?_, by decide, by decide⟩
  intro s₁ s₂ t h
  unfold pseudonymize
  rw [h]

theorem C3_state_reset_amended_witness :
    pseudonymize (⟨none, [("x".data, "[PERSOON_1]")], 5, 7, [("bsn", 3)], ["w"]⟩ : MedState)
        "123456789"
      = pseudonymize (mkMedicalPseudonymizer none) "123456789" :=
  C3_state_reset_amended.1 _ _ "123456789" (by decide)

/-! ### C7: registry key normalization -/

/-- C7 counterexample: `Pseudonimiseerder._get_label` does not collapse
internal whitespace, so the two texts `"Jan  de  Vries"` and
`"jan de vries"` — identical under the lower-case-and-collapse normalizer
the claim describes — receive the distinct labels `[NAAM_1]` and
`[NAAM_2]` from one registry. -/
theorem C7_counterexample :
    normalize_name "Jan  de  Vries".data = normalize_name "jan de vries".data
    ∧ (get_label "naam" "Jan  de  Vries".data [] []).1 = "[NAAM_1]"
    ∧ (get_label "naam" "jan de vries".data
        (get_label "naam" "Jan  de  Vries".data [] []).2.1
        (get_label "naam" "Jan  de  Vries".data [] []).2.2).1 = "[NAAM_2]"
    ∧ ("[NAAM_1]" : String) ≠ "[NAAM_2]" :=
  ⟨by decide, by decide, by decide, by decide⟩

/-- C7 amended: `MedicalPseudonymizer._get_person_pseudonym` normalizes its
key by lower-casing and collapsing internal whitespace, so any two texts
with the same normalized key share one registry entry and label;
`Pseudonimiseerder._get_label` normalizes only by lower-casing and
stripping edge whitespace, so texts equal under lower-and-strip share a
label, but texts differing in internal whitespace (such as
`"Jan  de  Vries"` and `"jan de vries"`) do not. -/
theorem C7_normalization_amended :
    (∀ (t₁ t₂ : List Char) (mapping : List (List Char × String)) (counter : Nat),
      normalize_name t₁ = normalize_name t₂ →
      get_person_pseudonym t₁ mapping counter = get_person_pseudonym t₂ mapping counter)
    ∧ (∀ (cat : String) (t₁ t₂ : List Char) (tellers : List (String × Nat))
        (mapping : List (List Char × String)),
      pyStrip (pyLower t₁) = pyStrip (pyLower t₂) →
      get_label cat t₁ tellers mapping = get_label cat t₂ tellers mapping)
    ∧ normalize_name "Jan  de  Vries".data = "jan de vries".data
    ∧ pyStrip (pyLower "Jan  de  Vries".data) ≠ pyStrip (pyLower "jan de vries".data) := by
  refine ⟨?_, ?_, by decide, by decide⟩
  · intro t₁ t₂ mapping counter h
    unfold get_person_pseudonym
    rw [h]
  · intro cat t₁ t₂ tellers mapping h
    unfold get_label
    rw [h]

theorem C7_normalization_amended_witness :
    get_person_pseudonym "JAN   de  VRIES".data [] 0
      = get_person_pseudonym "jan de vries".data [] 0 :=
  C7_normalization_amended.1 _ _ [] 0 (by decide)

/-! ### C1: national-ID checksum gating -/

theorem foldl_preserves {α β : Type} (P : β → Prop) :
    ∀ (l : List α) (f : List β → α → List β),
      (∀ acc a, a ∈ l → (∀ x ∈ acc, P x) → ∀ x ∈ f acc a, P x) →
      ∀ init, (∀ x ∈ init, P x) → ∀ x ∈ List.foldl f init l, P x := by
  intro l
  induction l with
  | nil => intro f _ init h; simpa using h
  | cons a rest ih =>
    intro f hf init h
    simp only [List.foldl_cons]
    exact ih f (fun acc b hb => hf acc b (List.mem_cons_of_mem _ hb))
      (f init a) (hf init a (List.mem_cons_self _ _) h)

/-- C1 counterexample: `MedicalPseudonymizer.pseudonymize` replaces the
standalone digit string `123456789` by `[BSN]` although it fails the
11-test — `_replace_bsn` performs no checksum validation. -/
theorem C1_counterexample :
    (pseudonymize (mkMedicalPseudonymizer none) "123456789").2.pseudonymized_text = "[BSN]"
    ∧ valideer_bsnS "123456789" = false :=
  ⟨by decide, by decide⟩

/-- C1 amended: only `Pseudonimiseerder` gates national-ID candidates with
the 11-test: every `[BSN]` span its contact detector emits comes from a
nine-digit match whose captured group passes `valideer_bsn`; the standalone
`123456789` is left unchanged by its pipeline while a standalone
`123456782` becomes `[BSN]`.  `MedicalPseudonymizer._replace_bsn` replaces
any standalone nine-digit sequence without checksum validation — both
`123456782` and `123456789` become `[BSN]`. -/
theorem C1_bsn_checksum_amended :
    (∀ (tekst : List Char) (g : Gevonden), g ∈ detecteer_contact tekst →
      gLabel g = "[BSN]" →
      ∃ m ∈ findIter reBSN tekst, g = mkGevonden m "[BSN]"
        ∧ valideer_bsn ((capGroup m 1).getD []) = true)
    ∧ (pseudonimiseerS (mkPseudonimiseerder true none) "bsn 123456789").1 = "bsn 123456789"
    ∧ (pseudonimiseerS (mkPseudonimiseerder true none) "bsn 123456782").1 = "bsn [BSN]"
    ∧ (pseudonymize (mkMedicalPseudonymizer none) "123456782").2.pseudonymized_text = "[BSN]"
    ∧ (replace_bsn "123456789".data []).1 = "[BSN]".data := by
  refine ⟨?_, by decide, by decide, by decide, by decide⟩
  intro tekst
  suffices h : ∀ x ∈ detecteer_contact tekst, gLabel x = "[BSN]" →
      ∃ m ∈ findIter reBSN tekst, x = mkGevonden m "[BSN]"
        ∧ valideer_bsn ((capGroup m 1).getD []) = true by
    intro g hg hlbl
    exact h g hg hlbl
  simp only [detecteer_contact]
  apply foldl_preserves
  · -- patient-number stage: adds only [PATIENTNUMMER] labels
    intro acc a _ hacc x hx
    rcases List.mem_append.mp hx with hx' | hx'
    · exact hacc x hx'
    · intro hlbl
      simp only [List.mem_singleton] at hx'
      subst hx'
      exact absurd hlbl (by simp [mkGevonden, gLabel])
  · -- phone stage (fold over the two phone patterns)
    apply foldl_preserves
    · intro acc pat _ hacc
      apply foldl_preserves
      · intro acc2 m _ hacc2 x hx
        by_cases hcond : (acc2.any fun x => decide (gStart x ≤ m.start) &&
            decide (m.start < gEind x)) = true
        · simp only [hcond, Bool.not_true, Bool.false_eq_true, if_neg,
            not_false_iff] at hx
          exact hacc2 x hx
        · simp only [Bool.not_eq_true] at hcond
          simp only [hcond, Bool.not_false, if_pos] at hx
          rcases List.mem_append.mp hx with hx' | hx'
          · exact hacc2 x hx'
          · intro hlbl
            simp only [List.mem_singleton] at hx'
            subst hx'
            exact absurd hlbl (by simp [mkGevonden, gLabel])
      · exact hacc
    · -- iban stage
      apply foldl_preserves
      · intro acc a _ hacc x hx
        rcases List.mem_append.mp hx with hx' | hx'
        · exact hacc x hx'
        · intro hlbl
          simp only [List.mem_singleton] at hx'
          subst hx'
          exact absurd hlbl (by simp [mkGevonden, gLabel])
      · -- bsn stage: each added span carries a validated group
        apply foldl_preserves
        · intro acc m hm hacc x hx
          by_cases hval : valideer_bsn ((capGroup m 1).getD []) = true
          · simp only [hval, if_pos] at hx
            rcases List.mem_append.mp hx with hx' | hx'
            · exact hacc x hx'
            · intro _
              simp only [List.mem_singleton] at hx'
              exact ⟨m, hm, hx', hval⟩
          · simp only [Bool.not_eq_true] at hval
            simp only [hval, Bool.false_eq_true, if_neg, not_false_iff] at hx
            exact hacc x hx
        · intro x hx
          simp at hx

theorem C1_bsn_checksum_amended_witness :
    ∃ m ∈ findIter reBSN "123456782".data,
      ((0, 9, "123456782".data, "[BSN]") : Gevonden) = mkGevonden m "[BSN]"
        ∧ valideer_bsn ((capGroup m 1).getD []) = true :=
  C1_bsn_checksum_amended.1 "123456782".data (0, 9, "123456782".data, "[BSN]")
    (by decide) (by decide)

/-! ### C4: reference-date derivation -/

theorem datumLoop_some (pool : List PyDateTime) (m : PyDateTime) :
    ∀ (xs : List DMatch) (g₀ : List Gevonden),
      datumLoop true pool xs (g₀, some m)
        = (g₀ ++ xs.map (fun x => (x.start, x.eind, x.orig, relLabelApp m x.datum)),
           some m) := by
  intro xs
  induction xs with
  | nil => intro g₀; simp [datumLoop]
  | cons x rest ih =>
    intro g₀
    simp only [datumLoop, datum_naar_relatief, if_pos, List.map_cons]
    rw [ih]
    simp

theorem datumLoop_false (pool : List PyDateTime) :
    ∀ (xs : List DMatch) (g₀ : List Gevonden) (r : Option PyDateTime),
      (datumLoop false pool xs (g₀, r)).2 = r := by
  intro xs
  induction xs with
  | nil => intro g₀ r; simp [datumLoop]
  | cons x rest ih =>
    intro g₀ r
    simp only [datumLoop, Bool.false_eq_true, if_neg, not_false_iff]
    exact ih _ _

theorem datumLoop_none (d : PyDateTime) (restPool : List PyDateTime) :
    ∀ (x : DMatch) (xs : List DMatch) (g₀ : List Gevonden),
      datumLoop true (d :: restPool) (x :: xs) (g₀, none)
        = (g₀ ++ (x :: xs).map (fun x => (x.start, x.eind, x.orig,
            relLabelApp (listMinDate d restPool) x.datum)),
           some (listMinDate d restPool)) := by
  intro x xs g₀
  simp only [datumLoop, datum_naar_relatief, if_pos, List.map_cons]
  rw [datumLoop_some]
  simp

/-- C4 counterexample: `MedicalPseudonymizer` does not derive the reference
date as the minimum of the dates parsed during the run.  On
`"consult 01-01-2020. trauma 18-11-2025."` the keyword detector fixes the
incident date at `2025-11-18` although the run parses `01-01-2020`, a
strictly earlier date, which consequently receives the negative relative
label `[T-2148]`. -/
theorem C4_counterexample :
    (pseudonymize (mkMedicalPseudonymizer none)
      "consult 01-01-2020. trauma 18-11-2025.").2.incident_date = some ⟨2025, 11, 18⟩
    ∧ (pseudonymize (mkMedicalPseudonymizer none)
      "consult 01-01-2020. trauma 18-11-2025.").2.pseudonymized_text
      = "consult [T-2148]. trauma [T+0]."
    ∧ parse_date "01-01-2020".data = some ⟨2020, 1, 1⟩
    ∧ dateLtB ⟨2020, 1, 1⟩ ⟨2025, 11, 18⟩ = true :=
  ⟨by decide, by decide, by decide, by decide⟩

theorem detecteer_datums_eq (tekst : List Char) (gebruik : Bool)
    (ref₀ : Option PyDateTime) (pool₀ : List PyDateTime) :
    detecteer_datums tekst gebruik ref₀ pool₀
      = ((datumLoop gebruik (pool₀ ++ (alleDatumMatches tekst).map (·.datum))
            (alleDatumMatches tekst) ([], ref₀)).1,
         (datumLoop gebruik (pool₀ ++ (alleDatumMatches tekst).map (·.datum))
            (alleDatumMatches tekst) ([], ref₀)).2,
         pool₀ ++ (alleDatumMatches tekst).map (·.datum)) := rfl

/-- C4 amended: in `Pseudonimiseerder` (relative mode, fresh run) the
reference date is derived as the minimum of all dates parsed during the
run's date-detection phase: the collect-and-parse pass precedes labelling,
every emitted label is computed against that minimum, and a reference date
that is already established never changes (also at the `pseudonimiseer`
entry point, whose final reference date is the one `_detecteer_datums`
leaves).  `MedicalPseudonymizer` instead establishes its incident date by
keyword patterns before any replacement — keeping a supplied date, else
storing the first keyword match — which need not be the minimum of the
dates parsed during the run. -/
theorem C4_reference_date_amended :
    (∀ (tekst : List Char) (gebruik : Bool),
      (detecteer_datums tekst gebruik none []).2.2 = [] →
      (detecteer_datums tekst gebruik none []).2.1 = none
        ∧ (detecteer_datums tekst gebruik none []).1 = [])
    ∧ (∀ (tekst : List Char) (d : PyDateTime) (rest : List PyDateTime),
      (detecteer_datums tekst true none []).2.2 = d :: rest →
      (detecteer_datums tekst true none []).2.1 = some (listMinDate d rest)
        ∧ ∀ g ∈ (detecteer_datums tekst true none []).1,
          ∃ dd ∈ (detecteer_datums tekst true none []).2.2,
            gLabel g = relLabelApp (listMinDate d rest) dd)
    ∧ (∀ (tekst : List Char) (gebruik : Bool) (R : PyDateTime) (pool₀ : List PyDateTime),
      (detecteer_datums tekst gebruik (some R) pool₀).2.1 = some R)
    ∧ (∀ (st : AppState) (tekst : List Char),
      (pseudonimiseer st tekst).2.referentie_datum
        = (detecteer_datums tekst st.gebruik_relatieve_datums st.referentie_datum
            st.gevonden_datums).2.1)
    ∧ (∀ (st : MedState) (t : String) (d : PyDateTime), st.incident_date = some d →
      (pseudonymize st t).2.incident_date = some d)
    ∧ (∀ (st : MedState) (t : String), st.incident_date = none →
      (pseudonymize st t).2.incident_date = detect_incident_date t.data) := by
  refine ⟨?_, ?_, ?_, ?_, ?_, ?_⟩
  · intro tekst gebruik hpool
    rw [detecteer_datums_eq] at hpool ⊢
    simp only [List.nil_append] at hpool ⊢
    have hxs : alleDatumMatches tekst = [] := by
      simpa using List.map_eq_nil_iff.mp hpool
    rw [hxs]
    simp [datumLoop]
  · intro tekst d rest hpool
    rw [detecteer_datums_eq] at hpool ⊢
    simp only [List.nil_append] at hpool ⊢
    rcases hxs : alleDatumMatches tekst with _ | ⟨x, xs'⟩
    · rw [hxs] at hpool; simp at hpool
    · rw [hxs] at hpool
      simp only [List.map_cons, List.cons.injEq] at hpool
      rcases hpool with ⟨hd, hrest⟩
      simp only [List.map_cons]
      rw [datumLoop_none]
      subst hd
      subst hrest
      refine ⟨rfl, ?_⟩
      intro g hg
      simp only [List.nil_append] at hg
      rcases List.mem_map.mp hg with ⟨y, hy, rfl⟩
      exact ⟨y.datum, List.mem_map.mpr ⟨y, hy, rfl⟩, rfl⟩
  · intro tekst gebruik R pool₀
    rw [detecteer_datums_eq]
    cases gebruik
    · exact datumLoop_false _ _ _ _
    · rw [datumLoop_some]
  · intro st tekst
    rfl
  · intro st t d h
    unfold pseudonymize
    rw [h]
  · intro st t h
    unfold pseudonymize
    rw [h]
    rcases hdet : detect_incident_date t.data with _ | dd <;> simp [hdet]

theorem C4_reference_date_amended_witness :
    (detecteer_datums "12-12-2025".data true none []).2.1
      = some (listMinDate ⟨2025, 12, 12⟩ []) :=
  ((C4_reference_date_amended.2.1) "12-12-2025".data ⟨2025, 12, 12⟩ [] (by decide)).1

/-! ### C5: relative-date banding -/

theorem pyRoundFrac_ge_two (a : Int) (h : 14 ≤ a) : 2 ≤ pyRoundFrac a 7 := by
  simp only [pyRoundFrac]
  rw [Int.fdiv_eq_ediv _ (by norm_num)]
  split_ifs <;> omega

theorem relLabelApp_eq_spec (R D : PyDateTime) :
    relLabelApp R D = relLabelSpec (dateDiffDays D R) := by
  unfold relLabelApp relLabelSpec
  set δ := dateDiffDays D R with hδ
  by_cases h0 : δ = 0
  · simp [h0]
  · have ha1 : 1 ≤ |δ| := Int.one_le_abs h0
    rw [if_neg h0, if_neg h0]
    by_cases h1 : |δ| = 1
    · simp [h1]
    · by_cases h7 : |δ| < 7
      · have hb : 2 ≤ |δ| ∧ |δ| ≤ 6 := by omega
        simp [h1, h7, hb, String.append_assoc]
      · by_cases h14 : |δ| < 14
        · have hb : 7 ≤ |δ| ∧ |δ| ≤ 13 := by omega
          have hb2 : ¬(2 ≤ |δ| ∧ |δ| ≤ 6) := by omega
          simp [h1, h7, h14, hb, hb2, String.append_assoc]
        · by_cases h28 : |δ| < 28
          · have hb : 14 ≤ |δ| ∧ |δ| ≤ 27 := by omega
            have hb2 : ¬(2 ≤ |δ| ∧ |δ| ≤ 6) := by omega
            have hb3 : ¬(7 ≤ |δ| ∧ |δ| ≤ 13) := by omega
            have hg2 : pyRoundFrac |δ| 7 > 1 := by
              have := pyRoundFrac_ge_two |δ| (by omega)
              omega
            simp [h1, h7, h14, h28, hb, hb2, hb3, hg2, String.append_assoc]
          · by_cases h60 : |δ| < 60
            · have hb : 28 ≤ |δ| ∧ |δ| ≤ 59 := by omega
              have hb2 : ¬(2 ≤ |δ| ∧ |δ| ≤ 6) := by omega
              have hb3 : ¬(7 ≤ |δ| ∧ |δ| ≤ 13) := by omega
              have hb4 : ¬(14 ≤ |δ| ∧ |δ| ≤ 27) := by omega
              by_cases hm : pyRoundFrac |δ| 30 = 1 <;>
                simp [h1, h7, h14, h28, h60, hb, hb2, hb3, hb4, hm, String.append_assoc]
            · by_cases h365 : |δ| < 365
              · have hb : 60 ≤ |δ| ∧ |δ| ≤ 364 := by omega
                have hb2 : ¬(2 ≤ |δ| ∧ |δ| ≤ 6) := by omega
                have hb3 : ¬(7 ≤ |δ| ∧ |δ| ≤ 13) := by omega
                have hb4 : ¬(14 ≤ |δ| ∧ |δ| ≤ 27) := by omega
                have hb5 : ¬(28 ≤ |δ| ∧ |δ| ≤ 59) := by omega
                simp [h1, h7, h14, h28, h60, h365, hb, hb2, hb3, hb4, hb5, String.append_assoc]
              · by_cases h730 : |δ| < 730
                · have hb : 365 ≤ |δ| ∧ |δ| ≤ 729 := by omega
                  have hb2 : ¬(2 ≤ |δ| ∧ |δ| ≤ 6) := by omega
                  have hb3 : ¬(7 ≤ |δ| ∧ |δ| ≤ 13) := by omega
                  have hb4 : ¬(14 ≤ |δ| ∧ |δ| ≤ 27) := by omega
                  have hb5 : ¬(28 ≤ |δ| ∧ |δ| ≤ 59) := by omega
                  have hb6 : ¬(60 ≤ |δ| ∧ |δ| ≤ 364) := by omega
                  have hj : |δ| / 365 = 1 := by omega
                  have h1s : toString (1 : Int) = "1" := rfl
                  by_cases hr0 : pyRoundFrac (|δ| % 365) 30 = 0
                  · have hr2 : ¬(2 ≤ pyRoundFrac (|δ| % 365) 30) := by omega
                    simp [h1, h7, h14, h28, h60, h365, h730, hb, hb2, hb3, hb4, hb5, hb6,
                      hj, hr0, hr2, h1s, String.append_assoc]
                  · by_cases hr1 : pyRoundFrac (|δ| % 365) 30 < 2
                    · have hr2 : ¬(2 ≤ pyRoundFrac (|δ| % 365) 30) := by omega
                      simp [h1, h7, h14, h28, h60, h365, h730, hb, hb2, hb3, hb4, hb5, hb6,
                        hj, hr0, hr1, hr2, h1s, String.append_assoc]
                    · have hr2 : 2 ≤ pyRoundFrac (|δ| % 365) 30 := by omega
                      simp [h1, h7, h14, h28, h60, h365, h730, hb, hb2, hb3, hb4, hb5, hb6,
                        hj, hr0, hr1, hr2, h1s, String.append_assoc]
                · have hb2 : ¬(2 ≤ |δ| ∧ |δ| ≤ 6) := by omega
                  have hb3 : ¬(7 ≤ |δ| ∧ |δ| ≤ 13) := by omega
                  have hb4 : ¬(14 ≤ |δ| ∧ |δ| ≤ 27) := by omega
                  have hb5 : ¬(28 ≤ |δ| ∧ |δ| ≤ 59) := by omega
                  have hb6 : ¬(60 ≤ |δ| ∧ |δ| ≤ 364) := by omega
                  have hb7 : ¬(365 ≤ |δ| ∧ |δ| ≤ 729) := by omega
                  simp [h1, h7, h14, h28, h60, h365, h730, hb2, hb3, hb4, hb5, hb6, hb7, String.append_assoc]

/-- C5 counterexample: the claim's sources include
`MedicalPseudonymizer._date_to_relative`, but that normalizer does not
choose units by banded magnitude: at the claim's own example
(reference `2022-06-14`, date `2021-06-14`, delta `-365`) it emits the
plain day-count label `[T-365]` rather than a `-1 year` label, and at
`D = R` it emits `[T+0]` rather than `[ONGEVAL]`. -/
theorem C5_counterexample :
    date_to_relative (some ⟨2022, 6, 14⟩) ⟨2021, 6, 14⟩ = "[T-365]"
    ∧ relLabelSpec (dateDiffDays ⟨2021, 6, 14⟩ ⟨2022, 6, 14⟩) = "[-1 jaar]"
    ∧ ("[T-365]" : String) ≠ "[-1 jaar]"
    ∧ date_to_relative (some ⟨2022, 6, 14⟩) ⟨2022, 6, 14⟩ = "[T+0]" :=
  ⟨by decide, by decide, by decide, by decide⟩

/-- C5 amended: the banded normalizer is
`Pseudonimiseerder._datum_naar_relatief`: with an established reference
date it agrees everywhere with the spec's band function `relLabelSpec`
(incident marker at delta 0; 1 day; 2-6 days; 7-13 one week; 14-27 weeks
rounded; 28-59 one-to-two months rounded; 60-364 months; 365-729 years
with the secondary years-plus-months form when the rounded remainder is at
least 2; 730 and up years to one decimal), in particular sending the
claim's examples to `[ONGEVAL]`, `[-4 dagen]`, `[+1 week]` and
`[-1 jaar]`.  `MedicalPseudonymizer._date_to_relative` instead emits raw
signed day counts `[T+d]`/`[T-d]` (`[T+0]` at the reference date). -/
theorem C5_date_bands_amended :
    (∀ (pool : List PyDateTime) (R D : PyDateTime),
      datum_naar_relatief (some R) pool D = (relLabelSpec (dateDiffDays D R), some R))
    ∧ datum_naar_relatief (some ⟨2022, 6, 14⟩) [] ⟨2022, 6, 14⟩ = ("[ONGEVAL]", some ⟨2022, 6, 14⟩)
    ∧ datum_naar_relatief (some ⟨2022, 6, 14⟩) [] ⟨2022, 6, 10⟩ = ("[-4 dagen]", some ⟨2022, 6, 14⟩)
    ∧ datum_naar_relatief (some ⟨2022, 6, 14⟩) [] ⟨2022, 6, 21⟩ = ("[+1 week]", some ⟨2022, 6, 14⟩)
    ∧ datum_naar_relatief (some ⟨2022, 6, 14⟩) [] ⟨2021, 6, 14⟩ = ("[-1 jaar]", some ⟨2022, 6, 14⟩)
    ∧ (∀ (inc D : PyDateTime),
      date_to_relative (some inc) D =
        (if dateDiffDays D inc = 0 then "[T+0]"
         else if dateDiffDays D inc > 0 then "[T+" ++ toString (dateDiffDays D inc) ++ "]"
         else "[T" ++ toString (dateDiffDays D inc) ++ "]")) := by
  refine ⟨?_, by decide, by decide, by decide, by decide, ?_⟩
  · intro pool R D
    simp only [datum_naar_relatief]
    rw [relLabelApp_eq_spec]
  · intro inc D
    rfl

/-! ### C6: counters and registries -/

theorem alookup_aset_self {α β : Type} [DecidableEq α] (k : α) (v : β) :
    ∀ l : List (α × β), alookup k (aset k v l) = some v := by
  intro l
  induction l with
  | nil => simp [aset, alookup]
  | cons kv rest ih =>
    by_cases h : kv.1 = k
    · simp [aset, alookup, h]
    · simp [aset, alookup, h, ih]

theorem aset_absent {α β : Type} [DecidableEq α] (k : α) (v : β) :
    ∀ l : List (α × β), alookup k l = none → aset k v l = l ++ [(k, v)] := by
  intro l
  induction l with
  | nil => intro _; simp [aset]
  | cons kv rest ih =>
    intro h
    by_cases hk : kv.1 = k
    · simp [alookup, hk] at h
    · simp only [alookup, hk, if_neg, not_false_iff] at h
      simp [aset, hk, ih h]

theorem labelKeys_append (k : List Char) :
    ∀ (xs : List (List Char)) (s : Nat),
      labelKeys (xs ++ [k]) s
        = labelKeys xs s ++ [(k, "[PERSOON_" ++ toString (s + xs.length + 1) ++ "]")] := by
  intro xs
  induction xs with
  | nil => intro s; simp [labelKeys]
  | cons x rest ih =>
    intro s
    simp only [List.cons_append, labelKeys, List.append_eq]
    rw [ih (s + 1)]
    have h : s + 1 + rest.length + 1 = s + (x :: rest).length + 1 := by
      simp
      omega
    rw [h]

theorem alookup_labelKeys_none (k : List Char) :
    ∀ (xs : List (List Char)) (s : Nat), ¬ xs.contains k →
      alookup k (labelKeys xs s) = none := by
  intro xs
  induction xs with
  | nil => intro s _; simp [labelKeys, alookup]
  | cons x rest ih =>
    intro s hk
    simp only [List.contains_cons, Bool.or_eq_true, not_or] at hk
    have hx : ¬ x = k := by
      intro h
      exact absurd (by simp [h]) hk.1
    simp only [labelKeys, alookup, hx, if_neg, not_false_iff]
    exact ih (s + 1) (by simpa using hk.2)

theorem alookup_labelKeys_isSome (k : List Char) :
    ∀ (xs : List (List Char)) (s : Nat), xs.contains k →
      (alookup k (labelKeys xs s)).isSome := by
  intro xs
  induction xs with
  | nil => intro s h; simp at h
  | cons x rest ih =>
    intro s hk
    by_cases hx : x = k
    · simp [labelKeys, alookup, hx]
    · simp only [List.contains_cons, Bool.or_eq_true] at hk
      rcases hk with hk | hk
      · have hkk : k = x := by simpa using hk
        exact absurd hkk.symm hx
      · simp only [labelKeys, alookup, hx, if_neg, not_false_iff]
        exact ih (s + 1) hk

theorem runPersonPseudonyms_inv :
    ∀ (l : List (List Char)) (seen : List (List Char)),
      (runPersonPseudonyms l (labelKeys seen 0) seen.length).2
        = (labelKeys (keysFrom seen l) 0, (keysFrom seen l).length) := by
  intro l
  induction l with
  | nil => intro seen; simp [runPersonPseudonyms, keysFrom]
  | cons n rest ih =>
    intro seen
    simp only [runPersonPseudonyms, keysFrom]
    by_cases hk : seen.contains (normalize_name n)
    · have hsome := alookup_labelKeys_isSome (normalize_name n) seen 0 hk
      rcases halk : alookup (normalize_name n) (labelKeys seen 0) with _ | lbl
      · rw [halk] at hsome; simp at hsome
      · have hstep : get_person_pseudonym n (labelKeys seen 0) seen.length
            = (lbl, labelKeys seen 0, seen.length) := by
          simp only [get_person_pseudonym]
          rw [halk]
        rw [hstep]
        simp only [addKey, hk, if_pos]
        exact ih seen
    · have hnone := alookup_labelKeys_none (normalize_name n) seen 0 hk
      have hstep : get_person_pseudonym n (labelKeys seen 0) seen.length
          = ("[PERSOON_" ++ toString (seen.length + 1) ++ "]",
             labelKeys (seen ++ [normalize_name n]) 0, seen.length + 1) := by
        simp only [get_person_pseudonym]
        rw [hnone, aset_absent _ _ _ hnone, labelKeys_append]
        simp
      rw [hstep]
      simp only [addKey, hk, Bool.false_eq_true, if_neg, not_false_iff]
      have hlen : seen.length + 1 = (seen ++ [normalize_name n]).length := by simp
      rw [hlen]
      exact ih (seen ++ [normalize_name n])

theorem alookup_abump {α : Type} [DecidableEq α] (k : α) (l : List (α × Nat)) :
    alookup k (abump k l) = some ((alookup k l).getD 0 + 1) := by
  unfold abump
  exact alookup_aset_self k _ l

/-- C6 counterexample: two occurrences of the same address text in one
document do not receive the same label from
`MedicalPseudonymizer._replace_addresses` (a cited source of the claim):
each match increments the address counter and gets a fresh label, so
`"Hoofdstraat 42, Hoofdstraat 42"` becomes `"[ADRES_1], [ADRES_2]"` (also
through the full `pseudonymize` entry point). -/
theorem C6_counterexample :
    (replace_addresses "Hoofdstraat 42, Hoofdstraat 42".data 0 []).1
      = "[ADRES_1], [ADRES_2]".data
    ∧ (replace_addresses "Hoofdstraat 42, Hoofdstraat 42".data 0 []).2.1 = 2
    ∧ (pseudonymize (mkMedicalPseudonymizer none)
        "Hoofdstraat 42, Hoofdstraat 42").2.pseudonymized_text = "[ADRES_1], [ADRES_2]" :=
  ⟨by decide, by decide, by decide⟩

/-- C6 amended: the name registries behave as the claim states — in
`MedicalPseudonymizer`, after any sequence of sightings from a fresh
state the `i`-th distinct normalized name is mapped to `[PERSOON_i]` and
the counter equals the number of distinct normalized names; a sighting
whose key is present returns the stored label without touching the state,
and a fresh key increments the counter by one and labels it with the new
counter value.  `Pseudonimiseerder._get_label` gives the same guarantee
for its categories (names, addresses, locations).  But
`MedicalPseudonymizer._replace_addresses` uses no registry: its
replacement closure increments the address counter and emits a fresh
`[ADRES_n]` label for every match, including repeats of the same text. -/
theorem C6_counters_amended :
    (∀ l : List (List Char),
      (runPersonPseudonyms l [] 0).2 = (labelKeys (keysOf l) 0, (keysOf l).length))
    ∧ (∀ (n : List Char) (mapping : List (List Char × String)) (counter : Nat) (lbl : String),
      alookup (normalize_name n) mapping = some lbl →
      get_person_pseudonym n mapping counter = (lbl, mapping, counter))
    ∧ (∀ (n : List Char) (mapping : List (List Char × String)) (counter : Nat),
      alookup (normalize_name n) mapping = none →
      get_person_pseudonym n mapping counter
        = ("[PERSOON_" ++ toString (counter + 1) ++ "]",
           aset (normalize_name n) ("[PERSOON_" ++ toString (counter + 1) ++ "]") mapping,
           counter + 1))
    ∧ (∀ (cat : String) (orig : List Char) (tellers : List (String × Nat))
        (mapping : List (List Char × String)) (lbl : String),
      alookup (pyStrip (pyLower orig)) mapping = some lbl →
      get_label cat orig tellers mapping = (lbl, tellers, mapping))
    ∧ (∀ (cat : String) (orig : List Char) (tellers : List (String × Nat))
        (mapping : List (List Char × String)),
      alookup (pyStrip (pyLower orig)) mapping = none →
      get_label cat orig tellers mapping
        = ("[" ++ String.mk (pyUpper cat.data) ++ "_"
            ++ toString ((alookup cat tellers).getD 0 + 1) ++ "]",
           abump cat tellers,
           aset (pyStrip (pyLower orig))
             ("[" ++ String.mk (pyUpper cat.data) ++ "_"
               ++ toString ((alookup cat tellers).getD 0 + 1) ++ "]") mapping))
    ∧ (∀ (m : RMatch) (cnt : Nat) (stats : List (String × Nat)),
      addressReplacer m (cnt, stats)
        = (("[ADRES_" ++ toString (cnt + 1) ++ "]").data, (cnt + 1, abump "addresses" stats))) := by
  refine ⟨?_, ?_, ?_, ?_, ?_, ?_⟩
  · intro l
    have h := runPersonPseudonyms_inv l []
    simpa [labelKeys, keysOf] using h
  · intro n mapping counter lbl h
    simp only [get_person_pseudonym]
    rw [h]
  · intro n mapping counter h
    simp only [get_person_pseudonym]
    rw [h]
  · intro cat orig tellers mapping lbl h
    simp only [get_label]
    rw [h]
  · intro cat orig tellers mapping h
    simp only [get_label]
    rw [h, alookup_abump]
    simp
  · intro m cnt stats
    rfl

theorem C6_counters_amended_witness :
    get_person_pseudonym "Jan  de  Vries".data [("jan de vries".data, "[PERSOON_7]")] 9
      = ("[PERSOON_7]", [("jan de vries".data, "[PERSOON_7]")], 9) :=
  C6_counters_amended.2.1 "Jan  de  Vries".data [("jan de vries".data, "[PERSOON_7]")] 9
    "[PERSOON_7]" (by decide)

/-! ### C8: missing-reference fallback and warning -/

/-- C8 counterexample: `Pseudonimiseerder` (a cited source of the claim)
never emits the skip warning: a run with no supplied reference date in
which none can be detected ends with an empty warnings list — the object's
`waarschuwingen` is never written anywhere in `app.py`. -/
theorem C8_counterexample :
    (pseudonimiseerS (mkPseudonimiseerder true none) "abc").2.waarschuwingen = ([] : List String)
    ∧ (pseudonimiseerS (mkPseudonimiseerder true none) "abc").2.referentie_datum = none
    ∧ (pseudonimiseerS (mkPseudonimiseerder true none) "abc").1 = "abc" :=
  ⟨by decide, by decide, by decide⟩

/-- C8 amended: in `MedicalPseudonymizer.pseudonymize` (the entry point
whose result carries a warnings list), when no incident date is supplied
and none can be detected, every date handled by the date pass degrades to
the literal `[DATUM]` marker (unparsable candidates stay unchanged) and
the returned warnings list contains exactly the skip warning; when a
reference date is established (supplied or detected) the warnings list is
empty.  `Pseudonimiseerder` never emits any warning. -/
theorem C8_warning_fallback_amended :
    (∀ D : PyDateTime, date_to_relative none D = "[DATUM]")
    ∧ (∀ (m : RMatch) (stats : List (String × Nat)),
        (dateReplacer none m stats).1 = "[DATUM]".data ∨ (dateReplacer none m stats).1 = m.text)
    ∧ (∀ (st : MedState) (t : String), st.incident_date = none →
        detect_incident_date t.data = none →
        (pseudonymize st t).2.warnings = [skipWarningMsg]
          ∧ (pseudonymize st t).2.incident_date = none)
    ∧ (∀ (st : MedState) (t : String) (d : PyDateTime), st.incident_date = some d →
        (pseudonymize st t).2.warnings = [])
    ∧ (∀ (st : MedState) (t : String) (d : PyDateTime), st.incident_date = none →
        detect_incident_date t.data = some d →
        (pseudonymize st t).2.warnings = [])
    ∧ (pseudonymize (mkMedicalPseudonymizer none) "op 12-12-2025").2.pseudonymized_text
      = "op [DATUM]"
    ∧ (pseudonymize (mkMedicalPseudonymizer none) "op 12-12-2025").2.warnings
      = [skipWarningMsg] := by
  refine ⟨?_, ?_, ?_, ?_, ?_, by decide, by decide⟩
  · intro D
    rfl
  · intro m stats
    simp only [dateReplacer]
    split
    · split
      · left
        rfl
      · right
        rfl
    · right
      rfl
  · intro st t h hdet
    constructor <;> (unfold pseudonymize; rw [h]; simp [hdet])
  · intro st t d h
    unfold pseudonymize
    rw [h]
  · intro st t d h hdet
    unfold pseudonymize
    rw [h]
    simp [hdet]

theorem C8_warning_fallback_amended_witness :
    (pseudonymize (mkMedicalPseudonymizer none) "op 12-12-2025").2.warnings = [skipWarningMsg]
    ∧ (pseudonymize (mkMedicalPseudonymizer none) "op 12-12-2025").2.incident_date = none :=
  C8_warning_fallback_amended.2.2.1 (mkMedicalPseudonymizer none) "op 12-12-2025" rfl (by decide)

/-! ### C9: malformed input safety -/

/-- C9: malformed candidates are treated as non-matches and never raise:
a date match whose `datetime` construction fails (such as `31-02-2025`) is
returned unchanged by the date replacer; `parse_datum` and `parse_date`
return `none` on calendar-invalid input; and both entry points terminate
normally on the empty string, on calendar-invalid dates and on
out-of-range or checksum-failing digit groupings, leaving the text
unchanged at the corresponding detection step. -/
theorem C9_malformed_safe :
    (∀ (inc : Option PyDateTime) (m : RMatch) (stats : List (String × Nat)),
      mkDatetime
        (let year0 := digitsToNat ((capGroup m 3).getD [])
         if year0 < 100 then (if year0 < 50 then 2000 + year0 else 1900 + year0) else year0)
        (digitsToNat ((capGroup m 2).getD []))
        (digitsToNat ((capGroup m 1).getD [])) = none →
      dateReplacer inc m stats = (m.text, stats))
    ∧ parse_datum "31".data "02".data "2025".data = none
    ∧ parse_datum "31".data "februari".data "2025".data = none
    ∧ parse_date "31-02-2025".data = none
    ∧ (pseudonimiseerS (mkPseudonimiseerder true none) "").1 = ""
    ∧ (pseudonymize (mkMedicalPseudonymizer none) "").2.pseudonymized_text = ""
    ∧ (pseudonimiseerS (mkPseudonimiseerder true none) "31-02-2025").1 = "31-02-2025"
    ∧ (pseudonymize (mkMedicalPseudonymizer none) "31-02-2025").2.pseudonymized_text
      = "31-02-2025"
    ∧ (pseudonimiseerS (mkPseudonimiseerder true none) "99-99-9999 12345 123456789").1
      = "99-99-9999 12345 123456789"
    ∧ (pseudonymize (mkMedicalPseudonymizer none) "99-99-9999").2.pseudonymized_text
      = "99-99-9999" := by
  refine ⟨?_, by decide, by decide, by decide, by decide, by decide, by decide, by decide,
    by decide, by decide⟩
  intro inc m stats h
  simp only [dateReplacer]
  split
  · simp only [h]
  · rfl

theorem C9_malformed_safe_witness :
    dateReplacer none
        ⟨0, "31-02-2025".data, [(1, "31".data), (2, "02".data), (3, "2025".data)]⟩ []
      = ("31-02-2025".data, []) :=
  C9_malformed_safe.1 none
    ⟨0, "31-02-2025".data, [(1, "31".data), (2, "02".data), (3, "2025".data)]⟩ []
    (by decide)
